import Mathlib

/-!
Shallow embedding of the zockimate container-lifecycle manager (Go) and
verification of the frozen claims about its specification.

Conventions of the embedding:
* Go machine integers are modelled as `Int`/`Nat` (no overflow is relevant
  to the verified paths; durations are `Int` nanoseconds).
* Fallible Go calls return `Except`/`Option`; a Go runtime panic is made
  explicit (an `Option` result, or the `panicked` flag of the world state).
* Stateful code (the container manager) is embedded by explicit state
  passing over a `World` record that bundles the external collaborators
  (container engine, ZFS tool, relational store) as oracle data plus an
  event trace recording every effect the code issues.
* Go `defer` statements are applied explicitly, in LIFO order, at every
  return site of the embedded function, mirroring Go semantics.
-/

/-- ImageReference from internal/types/image.go (lines 10-16). -/
structure ImageReference where
  ID : String
  RepoDigest : String
  Tag : String
  Original : String
  Platform : String
deriving Repr, DecidableEq, Inhabited

/-- Go string slicing s[:12]: panics (modelled as `none`) when the string is
shorter than 12 characters, else yields the first 12 characters. -/
def goSlice12 (s : String) : Option String :=
  if s.length < 12 then none else some (s.take 12)

/-- String() from internal/types/image.go lines 19-27.  Every branch of the Go
code evaluates `ir.ID[:12]`; the partiality of that slice is made explicit:
the result is `none` exactly when the Go method panics. -/
def ImageReference.string (ir : ImageReference) : Option String :=
  if ir.RepoDigest ≠ "" then
    (goSlice12 ir.ID).map (fun short => ir.RepoDigest ++ " (" ++ short ++ ")")
  else if ir.Tag ≠ "" then
    (goSlice12 ir.ID).map (fun short => ir.Tag ++ " (" ++ short ++ ")")
  else goSlice12 ir.ID

/-- BestReference from internal/types/image.go lines 30-38. -/
def ImageReference.BestReference (ir : ImageReference) : String :=
  if ir.RepoDigest ≠ "" then ir.RepoDigest
  else if ir.Tag ≠ "" then ir.Tag
  else ir.ID

/-- IsExactReference from internal/types/image.go lines 41-43. -/
def ImageReference.IsExactReference (ir : ImageReference) : Bool :=
  ir.RepoDigest != "" || ir.ID != ""

/-- Container labels: a Go `map[string]string`, modelled as an association
list whose keys are unique by construction of the update operations. -/
abbrev Labels := List (String × String)

/-- Go map read `v, ok := m[k]`. -/
def labelGet (ls : Labels) (k : String) : Option String := ls.lookup k

/-- Go map read `m[k]` in value position: zero value "" when absent. -/
def labelGetD (ls : Labels) (k : String) : String := (ls.lookup k).getD ""

/-- Go map assignment `m[k] = v` (replaces an existing binding). -/
def labelSet (ls : Labels) (k v : String) : Labels :=
  if (ls.lookup k).isSome then
    ls.map (fun p => if p.1 = k then (k, v) else p)
  else ls ++ [(k, v)]

/-- Go `delete(m, k)`. -/
def labelDel (ls : Labels) (k : String) : Labels := ls.filter (fun p => p.1 ≠ k)

/-- CleanContainerName (pkg/utils, also cmd/zockimate/main.go lines 756-758):
`strings.TrimPrefix(name, "/")` removes one leading slash. -/
def cleanContainerName (s : String) : String :=
  if s.toList.take 1 = ['/'] then s.drop 1 else s

/-- IsContainerEnabled (cmd/zockimate/main.go lines 686-689). -/
def isContainerEnabled (ls : Labels) : Bool :=
  match labelGet ls "zockimate.enable" with
  | some v => v == "true"
  | none => false

/-- GetZFSDataset (cmd/zockimate/main.go lines 692-694). -/
def getZFSDataset (ls : Labels) : String := labelGetD ls "zockimate.zfs_dataset"

/-- Duration units of Go time.ParseDuration, in nanoseconds. -/
def goDurationUnit : String → Option Int
  | "ns" => some 1
  | "us" => some 1000
  | "ms" => some 1000000
  | "s" => some 1000000000
  | "m" => some 60000000000
  | "h" => some 3600000000000
  | _ => none

/-- Leading decimal digits of a character list, with the remainder;
fails when no digit is present. -/
def parseLeadingInt : List Char → Option (Nat × List Char)
  | cs =>
    let digits := cs.takeWhile (fun c => c.isDigit)
    let rest := cs.dropWhile (fun c => c.isDigit)
    if digits.isEmpty then none
    else some (digits.foldl (fun acc c => acc * 10 + (c.toNat - 48)) 0, rest)

/-- Longest run of non-digit characters (the unit of one duration component),
with the remainder. -/
def parseUnitRun (cs : List Char) : String × List Char :=
  (String.mk (cs.takeWhile (fun c => !c.isDigit)), cs.dropWhile (fun c => !c.isDigit))

/-- Component loop of Go time.ParseDuration: repeatedly read an integer and a
unit, accumulating nanoseconds.  Fractional components (a "." in the input)
are outside this model and rejected; the parse fails exactly where Go fails
on whole-unit inputs.  Fuel is the length of the remaining input. -/
def parseDurationLoop : Nat → List Char → Int → Option Int
  | _, [], acc => some acc
  | 0, _, _ => none
  | fuel + 1, cs, acc =>
    match parseLeadingInt cs with
    | none => none
    | some (v, rest) =>
      let (unit, rest2) := parseUnitRun rest
      if unit.toList.contains '.' then none
      else
        match goDurationUnit unit with
        | none => none
        | some u => parseDurationLoop fuel rest2 (acc + (v : Int) * u)

/-- Go time.ParseDuration restricted to whole-unit durations (no fractional
part), returning nanoseconds; `none` models a parse error. -/
def parseGoDuration (s : String) : Option Int :=
  let (neg, body) :=
    match s.toList with
    | '-' :: rest => (true, rest)
    | '+' :: rest => (false, rest)
    | cs => (false, cs)
  if body = ['0'] then some 0
  else if body = [] then none
  else
    match parseDurationLoop body.length body 0 with
    | none => none
    | some d => some (if neg then -d else d)

/-- 24 hours in nanoseconds. -/
def hours24 : Int := 24 * 3600 * 1000000000

/-- 30 minutes in nanoseconds (DefaultCheckTimeout and friends,
internal/types/options/common.go lines 10-22). -/
def defaultTimeout30m : Int := 30 * 60 * 1000000000

/-- GetTimeout from cmd/zockimate/main.go lines 654-668 (same helper as
pkg/utils).  Honors the zockimate.timeout label when it parses to a
duration d with 0 < d and d ≤ 24h, else falls back to the default. -/
def getTimeout (labels : Labels) (defaultTimeout : Int) : Int :=
  match labelGet labels "zockimate.timeout" with
  | some timeout =>
    match parseGoDuration timeout with
    | some d => if 0 < d && d ≤ hours24 then d else defaultTimeout
    | none => defaultTimeout
  | none => defaultTimeout

/-- Serialized configuration blob: either valid JSON of an `α` value or bytes
that json.Unmarshal rejects. -/
inductive Enc (α : Type) where
  | ok (a : α)
  | bad
deriving Repr, DecidableEq

instance : Inhabited (Enc α) := ⟨.bad⟩

/-- Docker container.Config: the fields the verified code reads or writes. -/
structure ContainerConfig where
  Image : String
  Labels : Labels
deriving Repr, DecidableEq, Inhabited

/-- ContainerSnapshot from internal/types/snapshot.go lines 12-24.  The
created_at column is modelled as a second counter; RFC-3339 strings of
distinct seconds compare the same way as the counters. -/
structure ContainerSnapshot where
  ID : Int
  ContainerName : String
  ImageRef : ImageReference
  Config : Enc ContainerConfig
  HostConfig : Enc String
  NetworkConfig : Enc String
  ZFSSnapshot : String
  Status : String
  Message : String
  CreatedAt : Nat
deriving Repr, DecidableEq, Inhabited

/-- The part of a docker inspect result (types.ContainerJSON) that the
verified code reads: ctn.Image, ctn.State.Running, ctn.Config, and the
serialized forms handed back by GetContainerConfigs. -/
structure ContainerInfo where
  Image : String
  Running : Bool
  Config : ContainerConfig
  HostRaw : String
  NetRaw : String
deriving Repr, DecidableEq, Inhabited

/-- SnapshotOptions from internal/types/options/snapshot.go. -/
structure SnapshotOptions where
  Message : String
  DryRun : Bool
  Force : Bool
  NoCleanup : Bool
deriving Repr, DecidableEq, Inhabited

/-- CheckOptions as used by internal/manager/check.go (Force, Cleanup,
Timeout from the options package; Notify read at check.go line 111). -/
structure CheckOptions where
  Force : Bool
  Cleanup : Bool
  Timeout : Int
  Notify : Bool
deriving Repr, DecidableEq, Inhabited

/-- UpdateOptions from internal/types/options/update.go. -/
structure UpdateOptions where
  Force : Bool
  DryRun : Bool
  Timeout : Int
  ContainerReadyTimeout : Int
  Notify : Bool
deriving Repr, DecidableEq, Inhabited

/-- RollbackOptions from internal/types/options (part_002). -/
structure RollbackOptions where
  SnapshotID : Int
  Image : Bool
  Data : Bool
  Config : Bool
  Force : Bool
  Timeout : Int
deriving Repr, DecidableEq, Inhabited

/-- CheckResult from internal/types/snapshot.go (pointers modelled as
Option, the Error field is carried separately as the Go error return). -/
structure CheckResult where
  NeedsUpdate : Bool
  CurrentImage : Option ImageReference
  UpdateImage : Option ImageReference
deriving Repr, DecidableEq, Inhabited

/-- UpdateResult from internal/types/snapshot.go. -/
structure UpdateResult where
  ContainerName : String
  Success : Bool
  NeedsUpdate : Bool
  RollbackNeeded : Bool
  SnapshotID : Int
  OldImage : Option ImageReference
  NewImage : Option ImageReference
  Error : Option String
deriving Repr, DecidableEq, Inhabited

/-- RollbackResult from internal/types/snapshot.go. -/
structure RollbackResult where
  ContainerName : String
  Success : Bool
  SnapshotID : Int
  SafetySnapshot : Int
  ImageRollback : Bool
  DataRollback : Bool
  ConfigRollback : Bool
  Error : Option String
deriving Repr, DecidableEq, Inhabited

/-- Every externally visible effect the embedded code can issue. -/
inductive Event where
  | lockAcquired
  | lockReleased
  | unlockOfUnlocked
  | zfsCreated (handle : String)
  | zfsDestroyed (handle : String) (ok : Bool)
  | zfsRolledBack (handle : String)
  | pulled (ref : String)
  | recreated (name : String) (image : String) (labels : Labels)
  | recreateFailed (name : String)
  | waited (name : String) (timeout : Int) (ok : Bool)
  | snapshotSaved (id : Int) (message : String)
  | rowDeleted (id : Int)
  | imageRemoved (id : String) (ok : Bool)
  | notified (title : String)
deriving Repr, DecidableEq

/-- Result of a docker inspect call. -/
inductive InspectRes where
  | found (c : ContainerInfo)
  | notFound
  | engineErr
deriving Repr, DecidableEq, Inhabited

/-- The external collaborators (container engine, ZFS tool, relational
store) as oracle data.  Queue fields are consumed one call at a time with
the D field as the value after exhaustion; function fields are stateless
oracles keyed by their argument. -/
structure Env where
  inspectQ : List InspectRes
  inspectD : InspectRes
  imageInfo : String → Except Unit ImageReference
  pull : String → Bool
  getConfigsQ : List Bool
  getConfigsD : Bool
  recreateQ : List Bool
  recreateD : Bool
  waitQ : List Bool
  waitD : Bool
  zfsCreateQ : List Bool
  zfsCreateD : Bool
  zfsRoll : String → Bool
  zfsDestroy : String → Bool
  removeImage : String → Bool
  dbSaveQ : List Bool
  dbSaveD : Bool

/-- The manager configuration fields read by the verified paths
(internal/config/config.go) plus whether an Apprise notifier is attached. -/
structure Cfg where
  NoFilter : Bool
  All : Bool
  Retention : Nat
  hasNotify : Bool
deriving Repr, DecidableEq, Inhabited

/-- Full state threaded through the embedded manager operations. -/
structure World where
  cfg : Cfg
  env : Env
  db : List ContainerSnapshot
  nextId : Int
  clock : Nat
  lockDepth : Nat
  panicked : Bool
  deadlocked : Bool
  events : List Event

/-- Record an event. -/
def wEvent (w : World) (e : Event) : World := {w with events := w.events ++ [e]}

/-- cm.lock.Lock(): acquiring the write lock while it is already held would
deadlock the single-threaded process; that situation is recorded in the
deadlocked flag. -/
def wLock (w : World) : World :=
  let w := wEvent w .lockAcquired
  if w.lockDepth = 0 then {w with lockDepth := 1}
  else {w with lockDepth := w.lockDepth + 1, deadlocked := true}

/-- cm.lock.Unlock(): Go panics (sync: Unlock of unlocked RWMutex) when the
lock is not held; that is recorded as an unlockOfUnlocked event and the
panicked flag. -/
def wUnlock (w : World) : World :=
  if w.lockDepth = 0 then
    let w := wEvent w .unlockOfUnlocked
    {w with panicked := true}
  else
    let w := wEvent w .lockReleased
    {w with lockDepth := w.lockDepth - 1}

/-- cm.docker.InspectContainer. -/
def wInspect (w : World) : InspectRes × World :=
  match w.env.inspectQ with
  | [] => (w.env.inspectD, w)
  | r :: rs => (r, {w with env := {w.env with inspectQ := rs}})

/-- cm.docker.GetContainerConfigs: success consult (the serialized bytes
themselves come from the inspected container). -/
def wPopGetConfigs (w : World) : Bool × World :=
  match w.env.getConfigsQ with
  | [] => (w.env.getConfigsD, w)
  | b :: bs => (b, {w with env := {w.env with getConfigsQ := bs}})

/-- cm.docker.RecreateContainer: stop + remove + create + start under the
supplied config. -/
def wRecreate (w : World) (name : String) (config : ContainerConfig) : Bool × World :=
  match w.env.recreateQ with
  | [] =>
    if w.env.recreateD then (true, wEvent w (.recreated name config.Image config.Labels))
    else (false, wEvent w (.recreateFailed name))
  | b :: bs =>
    let w := {w with env := {w.env with recreateQ := bs}}
    if b then (true, wEvent w (.recreated name config.Image config.Labels))
    else (false, wEvent w (.recreateFailed name))

/-- cm.docker.WaitForContainer (client appended to zfs.go, lines 201-227):
context.WithTimeout with a non-positive timeout yields a context that is
already expired, so ctx.Done() is closed before the one-second ticker first
fires and the select deterministically returns the timeout error — the
container is never inspected.  With a positive timeout the readiness outcome
consults the oracle. -/
def wWait (w : World) (name : String) (timeout : Int) : Bool × World :=
  if timeout ≤ 0 then (false, wEvent w (.waited name timeout false))
  else
    match w.env.waitQ with
    | [] => (w.env.waitD, wEvent w (.waited name timeout w.env.waitD))
    | b :: bs =>
      let w := {w with env := {w.env with waitQ := bs}}
      (b, wEvent w (.waited name timeout b))

/-- cm.docker.PullImage. -/
def wPull (w : World) (ref : String) : Bool × World :=
  if w.env.pull ref then (true, wEvent w (.pulled ref)) else (false, w)

/-- cm.zfs.CreateSnapshot outcome consult. -/
def wPopZfsCreate (w : World) : Bool × World :=
  match w.env.zfsCreateQ with
  | [] => (w.env.zfsCreateD, w)
  | b :: bs => (b, {w with env := {w.env with zfsCreateQ := bs}})

/-- cm.zfs.DeleteSnapshot (callers either ignore or merely log its error). -/
def wZfsDestroy (w : World) (h : String) : World :=
  wEvent w (.zfsDestroyed h (w.env.zfsDestroy h))

/-- cm.zfs.RollbackSnapshot. -/
def wZfsRollback (w : World) (h : String) : Bool × World :=
  if w.env.zfsRoll h then (true, wEvent w (.zfsRolledBack h)) else (false, w)

/-- cm.docker.RemoveImage (best-effort, warn on error). -/
def wRemoveImage (w : World) (id : String) : World :=
  wEvent w (.imageRemoved id (w.env.removeImage id))

/-- Database.SaveSnapshot (database.go lines 88-119): INSERT stamping the
current UTC time, then LastInsertId. -/
def wDbSave (w : World) (s : ContainerSnapshot) : Except String Int × World :=
  let (ok, w) :=
    match w.env.dbSaveQ with
    | [] => (w.env.dbSaveD, w)
    | b :: bs => (b, {w with env := {w.env with dbSaveQ := bs}})
  if ok then
    let id := w.nextId
    let row := {s with ID := id, CreatedAt := w.clock}
    (.ok id,
     {w with db := w.db ++ [row], nextId := id + 1,
             events := w.events ++ [.snapshotSaved id s.Message]})
  else (.error "store error", w)

/-- Rows of one container (SQL WHERE container_name = ?). -/
def rowsFor (db : List ContainerSnapshot) (name : String) : List ContainerSnapshot :=
  db.filter (fun r => r.ContainerName == name)

/-- Most-recent-first comparison used by ORDER BY created_at DESC. -/
def recentFirst (a b : ContainerSnapshot) : Prop := b.CreatedAt ≤ a.CreatedAt

instance : DecidableRel recentFirst := fun a b => Nat.decLe b.CreatedAt a.CreatedAt

instance : IsTotal ContainerSnapshot recentFirst :=
  ⟨fun a b => Nat.le_total b.CreatedAt a.CreatedAt⟩

instance : IsTrans ContainerSnapshot recentFirst :=
  ⟨fun _ _ _ hab hbc => Nat.le_trans hbc hab⟩

/-- ORDER BY created_at DESC, modelled as an insertion sort under the
most-recent-first relation. -/
def sortByCreatedAtDesc (rs : List ContainerSnapshot) : List ContainerSnapshot :=
  rs.insertionSort recentFirst

/-- Database.GetSnapshot (database.go lines 122-171). -/
def dbGetSnapshot (db : List ContainerSnapshot) (name : String) (id : Int) :
    Except String ContainerSnapshot :=
  if 0 < id then
    match db.filter (fun r => r.ContainerName == name && r.ID == id) with
    | [] => .error "no snapshot found"
    | r :: _ => .ok r
  else
    match sortByCreatedAtDesc (rowsFor db name) with
    | [] => .error "no snapshot found"
    | r :: _ => .ok r

/-- Database.CleanupSnapshots (database.go lines 277-316): the SQL
SELECT ... ORDER BY created_at DESC LIMIT -1 OFFSET retain yields the rows
past the retain-th most recent; each one has its ZFS snapshot destroyed
best-effort (log on error) and its row deleted.  Returns the new table and
the events issued. -/
def cleanupSnapshots (zfsOk : String → Bool) (db : List ContainerSnapshot)
    (name : String) (retain : Nat) : List ContainerSnapshot × List Event :=
  let victims := (sortByCreatedAtDesc (rowsFor db name)).drop retain
  let evs := victims.flatMap
    (fun r =>
      (if r.ZFSSnapshot != "" then [Event.zfsDestroyed r.ZFSSnapshot (zfsOk r.ZFSSnapshot)] else [])
        ++ [Event.rowDeleted r.ID])
  (db.filter (fun r => !(victims.any (fun v => v.ID == r.ID))), evs)

/-- CleanupSnapshots threaded through the world (callers only log its
error, so no error propagation is modelled). -/
def wCleanup (w : World) (name : String) : World :=
  let (db2, evs) := cleanupSnapshots w.env.zfsDestroy w.db name w.cfg.Retention
  {w with db := db2, events := w.events ++ evs}

/-- Go error-to-string (%v of a possibly nil error). -/
def errStr : Option String → String
  | some s => s
  | none => "<nil>"

/-- Tail of CreateSnapshot (manager.go lines 307-346, appended to check.go):
serialize the configs, save the record, destroying the just-created dataset
snapshot when either of those steps fails, then optionally retention-sweep. -/
def createSnapshotRest (w : World) (name : String) (ctn : ContainerInfo)
    (imageRef : ImageReference) (zfsSnapshot : String) (opts : SnapshotOptions) :
    Except String (Option ContainerSnapshot) × World :=
  let (ok, w) := wPopGetConfigs w
  if !ok then
    let w := if zfsSnapshot != "" then wZfsDestroy w zfsSnapshot else w
    (.error "failed to get container configs", wUnlock w)
  else
    let snap : ContainerSnapshot :=
      { ID := 0, ContainerName := name, ImageRef := imageRef,
        Config := .ok ctn.Config, HostConfig := .ok ctn.HostRaw,
        NetworkConfig := .ok ctn.NetRaw, ZFSSnapshot := zfsSnapshot,
        Status := "snapshot", Message := opts.Message, CreatedAt := w.clock }
    match wDbSave w snap with
    | (.error e, w) =>
      let w := if zfsSnapshot != "" then wZfsDestroy w zfsSnapshot else w
      (.error ("failed to save snapshot: " ++ e), wUnlock w)
    | (.ok id, w) =>
      let snap := {snap with ID := id}
      let w := if !opts.NoCleanup then wCleanup w name else w
      (.ok (some snap), wUnlock w)

/-- CreateSnapshot (manager.go lines 259-347, appended to check.go).  Takes
the manager lock; the deferred Unlock is applied at every return site.  The
clock advances on entry: each capture happens at a fresh wall-clock second. -/
def createSnapshot (w0 : World) (name0 : String) (opts : SnapshotOptions) :
    Except String (Option ContainerSnapshot) × World :=
  let w := wLock w0
  let w := {w with clock := w.clock + 1}
  let name := cleanContainerName name0
  if opts.DryRun then (.ok none, wUnlock w)
  else
    match wInspect w with
    | (.notFound, w) => (.error "failed to inspect container", wUnlock w)
    | (.engineErr, w) => (.error "failed to inspect container", wUnlock w)
    | (.found ctn, w) =>
      if !opts.Force && !ctn.Running then
        (.error "container is not running (use --force to snapshot anyway)", wUnlock w)
      else
        match w.env.imageInfo ctn.Image with
        | .error _ => (.error "failed to get image info", wUnlock w)
        | .ok imageRef0 =>
          let imageRef :=
            match labelGet ctn.Config.Labels "zockimate.original_image" with
            | some v => {imageRef0 with Original := v}
            | none => {imageRef0 with Original := ctn.Config.Image}
          let dataset := getZFSDataset ctn.Config.Labels
          if dataset != "" then
            let (ok, w) := wPopZfsCreate w
            if !ok then (.error "failed to create ZFS snapshot", wUnlock w)
            else
              let h := dataset ++ "@snapshot_" ++ toString w.clock
              let w := wEvent w (.zfsCreated h)
              createSnapshotRest w name ctn imageRef h opts
          else createSnapshotRest w name ctn imageRef "" opts

/-- Tail of CheckContainer (check.go lines 97-124): best-effort image cleanup
then the optional notification, whose message formats both image references
(a panic when either String() call slices a short ID). -/
def checkFinish (w : World) (r : CheckResult)
    (currentImage latestImage : ImageReference) (opts : CheckOptions) :
    (CheckResult × Option String) × World :=
  let w := if opts.Cleanup && r.NeedsUpdate then wRemoveImage w latestImage.ID else w
  if r.NeedsUpdate && w.cfg.hasNotify && opts.Notify then
    match currentImage.string, latestImage.string with
    | some _, some _ => ((r, none), wUnlock (wEvent w (.notified "Update Available")))
    | _, _ => ((r, none), wUnlock {w with panicked := true})
  else ((r, none), wUnlock w)

/-- CheckContainer from internal/manager/check.go lines 15-125. -/
def checkContainer (w0 : World) (name0 : String) (opts : CheckOptions) :
    (CheckResult × Option String) × World :=
  let w := wLock w0
  let r : CheckResult := {NeedsUpdate := false, CurrentImage := none, UpdateImage := none}
  let _ := cleanContainerName name0
  match wInspect w with
  | (.notFound, w) => ((r, some "container does not exist"), wUnlock w)
  | (.engineErr, w) => ((r, some "failed to inspect container"), wUnlock w)
  | (.found ctn, w) =>
    if !w.cfg.NoFilter && !isContainerEnabled ctn.Config.Labels then
      ((r, some "container not enabled for management"), wUnlock w)
    else if !w.cfg.All && !ctn.Running then
      ((r, some "container not running (use --all to include stopped containers)"), wUnlock w)
    else
      match w.env.imageInfo ctn.Image with
      | .error _ => ((r, some "failed to get image info"), wUnlock w)
      | .ok currentImage =>
        let r := {r with CurrentImage := some currentImage}
        let updateRef0 := labelGetD ctn.Config.Labels "zockimate.original_image"
        let updateRef := if updateRef0 == "" then ctn.Config.Image else updateRef0
        let (ok, w) := wPull w updateRef
        if !ok then ((r, some "failed to pull update image"), wUnlock w)
        else
          match w.env.imageInfo updateRef with
          | .error _ => ((r, some "failed to get image info"), wUnlock w)
          | .ok latestImage =>
            let r := {r with UpdateImage := some latestImage}
            if currentImage.Platform != latestImage.Platform then
              ((r, some "architecture mismatch"), wUnlock w)
            else
              if currentImage.IsExactReference && latestImage.IsExactReference then
                -- duplicated platform check of check.go lines 82-85
                if currentImage.Platform != latestImage.Platform then
                  ((r, some "architecture mismatch"), wUnlock w)
                else
                  let needs :=
                    if currentImage.RepoDigest != "" && latestImage.RepoDigest != "" then
                      currentImage.RepoDigest != latestImage.RepoDigest
                    else currentImage.ID != latestImage.ID
                  checkFinish w {r with NeedsUpdate := needs} currentImage latestImage opts
              else
                checkFinish w {r with NeedsUpdate := currentImage.ID != latestImage.ID}
                  currentImage latestImage opts

/-- Success-path return of RollbackContainer: the deferred compensator is a
no-op (result.Error is nil) and the deferred Unlock releases the lock. -/
def rollbackOk (w : World) (r : RollbackResult) : (RollbackResult × Option String) × World :=
  ((r, none), wUnlock w)

/-- Deferred handlers of RollbackContainer (part_004 lines 221-244) applied at
a return site where result.Error is set.  Go runs defers in LIFO order: the
compensating handler registered at line 224 runs first — it releases the lock
and re-invokes RollbackContainer (the `nested` argument) on the safety
snapshot with all aspects forced, chaining the two errors when that nested
call also fails — and then the deferred Unlock registered at line 222 runs,
on a lock that the compensator already released. -/
def rollbackFailK
    (nested : World → String → RollbackOptions → (RollbackResult × Option String) × World)
    (w : World) (name : String) (safetyId : Int)
    (r : RollbackResult) (e : Option String) :
    (RollbackResult × Option String) × World :=
  let w := wUnlock w
  let ((sr, serr), w) := nested w name
    {SnapshotID := safetyId, Image := true, Data := true, Config := true,
     Force := true, Timeout := 0}
  let r :=
    if serr.isSome || !sr.Success then
      {r with Error := some ("failed to restore safety snapshot: " ++ errStr sr.Error ++
        " (original error: " ++ errStr r.Error ++ ")")}
    else r
  ((r, e), wUnlock w)

/-- Second image-aspect block, recreate, wait-ready and success return of
RollbackContainer (part_004 lines 306-342). -/
def rollbackStage3K
    (nested : World → String → RollbackOptions → (RollbackResult × Option String) × World)
    (w : World) (name : String) (safetyId : Int)
    (snap : ContainerSnapshot) (img : Bool) (tmo : Int)
    (r : RollbackResult) (config : ContainerConfig) (hostCfg netCfg : String) :
    (RollbackResult × Option String) × World :=
  let _ := hostCfg
  let _ := netCfg
  let config :=
    if img then
      let config := {config with Image := snap.ImageRef.BestReference}
      if snap.ImageRef.Original != "" then
        {config with Labels := labelSet config.Labels "zockimate.original_image" snap.ImageRef.Original}
      else config
    else config
  let (ok, w) := wRecreate w name config
  if !ok then
    let r := {r with Error := some "failed to recreate container"}
    rollbackFailK nested w name safetyId r r.Error
  else
    let timeout := getTimeout config.Labels tmo
    let (ok2, w) := wWait w name timeout
    if !ok2 then
      let r := {r with Error := some "container failed to become ready after rollback"}
      rollbackFailK nested w name safetyId r r.Error
    else
      let r := {r with Success := true}
      let w :=
        if w.cfg.hasNotify then
          match snap.ImageRef.string with
          | some _ => wEvent w (.notified "Rollback Successful")
          | none => {w with panicked := true}
        else w
      rollbackOk w r

/-- Data-aspect block of RollbackContainer (part_004 lines 298-304). -/
def rollbackStage2K
    (nested : World → String → RollbackOptions → (RollbackResult × Option String) × World)
    (w : World) (name : String) (safetyId : Int)
    (snap : ContainerSnapshot) (img dat : Bool) (tmo : Int)
    (r : RollbackResult) (config : ContainerConfig) (hostCfg netCfg : String) :
    (RollbackResult × Option String) × World :=
  if dat && snap.ZFSSnapshot != "" then
    let (ok, w) := wZfsRollback w snap.ZFSSnapshot
    if !ok then
      let r := {r with Error := some "failed to rollback ZFS snapshot"}
      rollbackFailK nested w name safetyId r r.Error
    else rollbackStage3K nested w name safetyId snap img tmo r config hostCfg netCfg
  else rollbackStage3K nested w name safetyId snap img tmo r config hostCfg netCfg

/-- First image-aspect block of RollbackContainer (part_004 lines 274-296):
exact-version guard, pull, config.Image and original_image label update. -/
def rollbackImage1K
    (nested : World → String → RollbackOptions → (RollbackResult × Option String) × World)
    (w : World) (name : String) (safetyId : Int)
    (snap : ContainerSnapshot) (img dat frc : Bool) (tmo : Int)
    (r : RollbackResult) (config : ContainerConfig) (hostCfg netCfg : String) :
    (RollbackResult × Option String) × World :=
  if img then
    if !frc && !snap.ImageRef.IsExactReference then
      let r := {r with Error := some "cannot guarantee exact image version for rollback (use --force to override)"}
      rollbackFailK nested w name safetyId r r.Error
    else
      let imageRef := snap.ImageRef.BestReference
      let (ok, w) := wPull w imageRef
      if !ok then
        let r := {r with Error := some "failed to pull rollback image"}
        rollbackFailK nested w name safetyId r r.Error
      else
        let config :=
          {config with Image := imageRef,
                       Labels := labelSet config.Labels "zockimate.original_image" snap.ImageRef.Original}
        rollbackStage2K nested w name safetyId snap img dat tmo r config hostCfg netCfg
  else rollbackStage2K nested w name safetyId snap img dat tmo r config hostCfg netCfg

/-- Body of RollbackContainer up to the unmarshal steps (part_004 lines
179-271): inspect and management gate, snapshot fetch, safety snapshot,
lock acquisition, unmarshal of the three stored blobs, snapshot_id label.
The `nested` argument is RollbackContainer itself, used by the deferred
compensating handler. -/
def rollbackBodyK
    (nested : World → String → RollbackOptions → (RollbackResult × Option String) × World)
    (w : World) (name0 : String) (sid : Int)
    (img dat frc : Bool) (tmo : Int) (r0 : RollbackResult) :
    (RollbackResult × Option String) × World :=
  let name := cleanContainerName name0
  match wInspect w with
  | (.notFound, w) => (({r0 with Error := some "container does not exist"}, none), w)
  | (.engineErr, w) => (({r0 with Error := some "failed to inspect container"}, none), w)
  | (.found ctn, w) =>
    if !w.cfg.NoFilter && !isContainerEnabled ctn.Config.Labels then
      (({r0 with Error := some "container not enabled for management"}, none), w)
    else
      match dbGetSnapshot w.db name sid with
      | .error e => (({r0 with Error := some ("failed to get snapshot: " ++ e)}, none), w)
      | .ok snap =>
        match createSnapshot w name
          {Message := "Auto-save before rollback to snapshot " ++ toString snap.ID,
           DryRun := false, Force := false, NoCleanup := true} with
        | (.error e, w) =>
          (({r0 with Error := some ("failed to create safety snapshot: " ++ e)}, none), w)
        | (.ok none, w) =>
          -- DryRun is false here, so CreateSnapshot never returns a nil
          -- snapshot; dereferencing it in Go would panic
          (({r0 with Error := some "nil safety snapshot"}, none), {w with panicked := true})
        | (.ok (some safety), w) =>
          let r := {r0 with SafetySnapshot := safety.ID}
          let w := wLock w
          match snap.Config with
          | .bad =>
            let r := {r with Error := some "failed to unmarshal config"}
            rollbackFailK nested w name safety.ID r r.Error
          | .ok config0 =>
            match snap.HostConfig with
            | .bad =>
              let r := {r with Error := some "failed to unmarshal host config"}
              rollbackFailK nested w name safety.ID r r.Error
            | .ok hostCfg =>
              match snap.NetworkConfig with
              | .bad =>
                let r := {r with Error := some "failed to unmarshal network config"}
                rollbackFailK nested w name safety.ID r r.Error
              | .ok netCfg =>
                let config := {config0 with
                  Labels := labelSet config0.Labels "zockimate.snapshot_id" (toString snap.ID)}
                rollbackImage1K nested w name safety.ID snap img dat frc tmo r config hostCfg netCfg

/-- The RollbackResult literal initialized at part_004 lines 171-177 (note:
with the name as passed in, before CleanContainerName). -/
def rollbackResult0 (name : String) (opts : RollbackOptions) : RollbackResult :=
  { ContainerName := name, Success := false, SnapshotID := opts.SnapshotID,
    SafetySnapshot := 0, ImageRollback := opts.Image, DataRollback := opts.Data,
    ConfigRollback := opts.Config, Error := none }

/-- RollbackContainer from part_004 lines 170-342 (the RollbackResult
version cited by the claims).  Fuel bounds the depth of compensating
re-entry; the fuel-exhaustion result is a model artifact never reached by
the theorems, which supply sufficient fuel. -/
def rollbackContainer : Nat → World → String → RollbackOptions →
    (RollbackResult × Option String) × World
  | 0, w, name, opts =>
    (({rollbackResult0 name opts with Error := some "model: recursion fuel exhausted"},
      some "model: recursion fuel exhausted"), w)
  | f + 1, w, name, opts =>
    rollbackBodyK (fun w n o => rollbackContainer f w n o) w name opts.SnapshotID
      opts.Image opts.Data opts.Force opts.Timeout (rollbackResult0 name opts)

/-- NewCheckOptions(WithCheckCleanup(false)) as built at update.go line 54. -/
def checkOptsForUpdate : CheckOptions :=
  {Force := false, Cleanup := false, Timeout := defaultTimeout30m, Notify := false}

/-- UpdateContainer from internal/manager/update.go lines 19-165 (the
UpdateResult-returning version cited by the claims). -/
def updateContainer (fuel : Nat) (w : World) (name0 : String) (opts : UpdateOptions) :
    (UpdateResult × Option String) × World :=
  let r0 : UpdateResult :=
    { ContainerName := name0, Success := false, NeedsUpdate := false,
      RollbackNeeded := false, SnapshotID := 0, OldImage := none, NewImage := none,
      Error := none }
  let name := cleanContainerName name0
  if opts.DryRun then ((r0, none), w)
  else
    match wInspect w with
    | (.notFound, w) => (({r0 with Error := some "container does not exist"}, none), w)
    | (.engineErr, w) => (({r0 with Error := some "failed to inspect container"}, none), w)
    | (.found ctn, w) =>
      if !w.cfg.NoFilter && !isContainerEnabled ctn.Config.Labels then
        (({r0 with Error := some "container not enabled for management"}, none), w)
      else if !w.cfg.All && !ctn.Running then
        (({r0 with Error := some "container not running (use --all to include stopped containers)"}, none), w)
      else
        match checkContainer w name checkOptsForUpdate with
        | ((_, some e), w) =>
          (({r0 with Error := some ("failed to check for updates: " ++ e)}, none), w)
        | ((checkResult, none), w) =>
          let r := {r0 with OldImage := checkResult.CurrentImage,
                            NewImage := checkResult.UpdateImage,
                            NeedsUpdate := checkResult.NeedsUpdate}
          if !checkResult.NeedsUpdate && !opts.Force then ((r, none), w)
          else
            match createSnapshot w name
              {Message := "Pre-update snapshot", DryRun := false, Force := false,
               NoCleanup := true} with
            | (.error e, w) => ((r, some ("failed to create pre-update snapshot: " ++ e)), w)
            | (.ok none, w) =>
              -- DryRun is false here: CreateSnapshot never returns a nil
              -- snapshot; dereferencing one in Go would panic
              ((r, some "nil pre-update snapshot"), {w with panicked := true})
            | (.ok (some safetySnapshot), w) =>
              let w := wLock w
              let (ok, w) := wPopGetConfigs w
              if !ok then ((r, some "failed to get container configurations"), wUnlock w)
              else
                -- GetContainerConfigs serializes the freshly inspected
                -- container and the three json.Unmarshal calls at update.go
                -- lines 92-105 decode those same bytes: the round-trip is
                -- exact, so the unmarshal error returns are unreachable
                let config0 := ctn.Config
                let config :=
                  match labelGet ctn.Config.Labels "zockimate.original_image" with
                  | some originalImage =>
                    {config0 with
                      Labels := labelSet config0.Labels "zockimate.original_image" originalImage,
                      Image := originalImage}
                  | none => config0
                let config :=
                  if (labelGet ctn.Config.Labels "zockimate.snapshot_id").isSome then
                    {config with Labels := labelDel config.Labels "zockimate.snapshot_id"}
                  else config
                let (ok2, w) := wRecreate w name config
                if !ok2 then ((r, some "failed to recreate container"), wUnlock w)
                else
                  let timeout := getTimeout ctn.Config.Labels opts.Timeout
                  let (ok3, w) := wWait w name timeout
                  if !ok3 then
                    let r := {r with RollbackNeeded := true}
                    let w := wUnlock w
                    match rollbackContainer fuel w name
                      {SnapshotID := safetySnapshot.ID, Image := true, Data := true,
                       Config := true, Force := true, Timeout := 0} with
                    | ((rollbackResult, rollbackErr), w) =>
                      if rollbackErr.isSome || !rollbackResult.Success then
                        let r := {r with Error := some ("update failed and rollback failed: " ++
                          errStr rollbackResult.Error ++ " (original error: container not ready)")}
                        ((r, none), wUnlock w)
                      else
                        let r := {r with Error := some ("update failed (rolled back to previous version: " ++
                          toString rollbackResult.SnapshotID ++ "): container not ready")}
                        ((r, none), wUnlock w)
                  else
                    (({r with Success := true}, none), wUnlock w)

/-- RemoveOptions from internal/types/options (part_003); times in seconds. -/
structure RemoveOptions where
  Force : Bool
  WithContainer : Bool
  OlderThan : Int
  Before : Nat
  All : Bool
  DryRun : Bool
  Zfs : Bool
deriving Repr, DecidableEq, Inhabited

/-- WHERE-clause condition strings built by RemoveEntries (database.go lines
345-354). -/
def removeConds (opts : RemoveOptions) : List String :=
  if opts.All then []
  else
    (if opts.Before ≠ 0 then ["created_at < ?"] else []) ++
    (if 0 < opts.OlderThan then ["created_at < ?"] else [])

/-- strings.Join(conditions, " AND "). -/
def joinAnd : List String → String
  | [] => ""
  | [c] => c
  | c :: cs => c ++ " AND " ++ joinAnd cs

/-- The DELETE statement text built by RemoveEntries (database.go lines
342-358). -/
def removeQuery (opts : RemoveOptions) : String :=
  let base := "DELETE FROM container_snapshots WHERE container_name = ?"
  match removeConds opts with
  | [] => base
  | cs => base ++ " AND " ++ joinAnd cs

/-- Characters after the first occurrence of " WHERE " in a statement. -/
def afterFirstWhere : List Char → Option (List Char)
  | [] => none
  | c :: cs =>
    if (c :: cs).take 7 = " WHERE ".toList then some ((c :: cs).drop 7)
    else afterFirstWhere cs

/-- Modelled from SQLite's grammar (the relational store is an external
collaborator, spec section 6): the WHERE clause of a SELECT statement must be
an expression, so a clause that starts with the statement keyword DELETE is a
syntax error and preparing the statement fails. -/
def sqlWhereClauseMalformed (q : String) : Bool :=
  match afterFirstWhere q.toList with
  | none => false
  | some rest => rest.take 7 = "DELETE ".toList

/-- Midnight truncation: Format("2006-01-02") prints only the date, and when
SQLite compares that date string with a stored RFC-3339 timestamp of the same
day the shorter date string sorts first, so created_at < date holds exactly
for timestamps before that midnight. -/
def dayTrunc (t : Nat) : Nat := t / 86400 * 86400

/-- Row filter realized by the DELETE statement RemoveEntries builds. -/
def removeMatches (opts : RemoveOptions) (now : Nat) (name : String)
    (r : ContainerSnapshot) : Bool :=
  r.ContainerName == name &&
  (opts.All ||
    ((opts.Before == 0 || decide (r.CreatedAt < dayTrunc opts.Before)) &&
     (decide (opts.OlderThan ≤ 0) || decide (r.CreatedAt < dayTrunc (now - opts.OlderThan.toNat)))))

/-- RemoveEntries from database.go lines 338-394.  When opts.Zfs is set the
code first runs a gather query whose text is the literal concatenation
"SELECT zfs_snapshot FROM container_snapshots WHERE " + query, where query is
the complete DELETE statement; only if that succeeds are the gathered dataset
snapshots destroyed and the rows deleted.  Returns the affected-row count or
the error, the resulting table, and the events issued. -/
def removeEntries (zfsOk : String → Bool) (db : List ContainerSnapshot)
    (name : String) (opts : RemoveOptions) (now : Nat) :
    Except String Int × List ContainerSnapshot × List Event :=
  let query := removeQuery opts
  let victims := db.filter (removeMatches opts now name)
  let gather :=
    if opts.Zfs then
      let gatherQuery := "SELECT zfs_snapshot FROM container_snapshots WHERE " ++ query
      if sqlWhereClauseMalformed gatherQuery then
        Except.error "failed to query ZFS snapshots"
      else
        Except.ok ((victims.map (fun r => r.ZFSSnapshot)).filter (fun s => s != ""))
    else Except.ok []
  match gather with
  | .error e => (.error e, db, [])
  | .ok snaps =>
    let evs := snaps.map (fun s => Event.zfsDestroyed s (zfsOk s))
    let db2 := db.filter (fun r => !(removeMatches opts now name r))
    (.ok (victims.length : Int), db2, evs)

/-- Within the events appended by one call (the suffix of `post` past `pre`),
every created dataset snapshot also has a destroy recorded for the same
handle: the call left no orphan dataset snapshot. -/
def noOrphanZfs (pre post : List Event) : Bool :=
  let evs := post.drop pre.length
  evs.all (fun e =>
    match e with
    | .zfsCreated h =>
      evs.any (fun e2 =>
        match e2 with
        | .zfsDestroyed h2 _ => h2 == h
        | _ => false)
    | _ => true)

/-- Row-deletion events, for stating which deletions a sweep performed. -/
def isRowDeleted : Event → Bool
  | .rowDeleted _ => true
  | _ => false

/-- Fixture: image currently installed for the test container. -/
def curImg : ImageReference :=
  { ID := "sha256:aaaaaaaaaaaaaaaa", RepoDigest := "nginx@sha256:abc", Tag := "nginx:latest",
    Original := "", Platform := "amd64/linux" }

/-- Fixture: image offered by the registry after a pull. -/
def latImg : ImageReference :=
  { ID := "sha256:bbbbbbbbbbbbbbbb", RepoDigest := "nginx@sha256:def", Tag := "nginx:latest",
    Original := "", Platform := "amd64/linux" }

/-- Fixture: a managed, running container without a dataset.  The
zockimate.timeout label gives every readiness wait — in particular the one
inside a compensating rollback, whose Timeout option is the Go zero value
0 — a positive bound of 5 minutes. -/
def ctnWeb : ContainerInfo :=
  { Image := "sha256:aaaaaaaaaaaaaaaa", Running := true,
    Config := { Image := "nginx:latest",
                Labels := [("zockimate.enable", "true"), ("zockimate.timeout", "5m")] },
    HostRaw := "hc", NetRaw := "nc" }

/-- Fixture: a managed, running container with a dataset label. -/
def ctnZfs : ContainerInfo :=
  { Image := "sha256:aaaaaaaaaaaaaaaa", Running := true,
    Config := { Image := "nginx:latest",
                Labels := [("zockimate.enable", "true"), ("zockimate.zfs_dataset", "tank/data")] },
    HostRaw := "hc", NetRaw := "nc" }

/-- Fixture: snapshot 7 of container web whose ImageReference has empty
repo_digest and empty local_id (not an exact reference). -/
def snap7 : ContainerSnapshot :=
  { ID := 7, ContainerName := "web",
    ImageRef := { ID := "", RepoDigest := "", Tag := "nginx:1.24",
                  Original := "nginx:latest", Platform := "amd64/linux" },
    Config := .ok { Image := "nginx:1.24", Labels := [("zockimate.enable", "true")] },
    HostConfig := .ok "hc", NetworkConfig := .ok "nc",
    ZFSSnapshot := "", Status := "snapshot", Message := "manual", CreatedAt := 1 }

/-- Fixture: an environment in which every engine, ZFS and store call
succeeds, every inspect sees ctnWeb, and every image resolves to curImg. -/
def envAllOk : Env :=
  { inspectQ := [], inspectD := .found ctnWeb,
    imageInfo := fun _ => .ok curImg,
    pull := fun _ => true,
    getConfigsQ := [], getConfigsD := true,
    recreateQ := [], recreateD := true,
    waitQ := [], waitD := true,
    zfsCreateQ := [], zfsCreateD := true,
    zfsRoll := fun _ => true, zfsDestroy := fun _ => true,
    removeImage := fun _ => true,
    dbSaveQ := [], dbSaveD := true }

/-- Fixture: default manager configuration, no notifier attached. -/
def cfg0 : Cfg := { NoFilter := false, All := false, Retention := 10, hasNotify := false }

/-- Fixture: starting world for the C1 scenario (snapshot 7 on file). -/
def w0 : World :=
  { cfg := cfg0, env := envAllOk, db := [snap7], nextId := 8, clock := 10,
    lockDepth := 0, panicked := false, deadlocked := false, events := [] }

/-- Fixture: rollback web 7 -i (image aspect only, no force). -/
def c1opts : RollbackOptions :=
  { SnapshotID := 7, Image := true, Data := false, Config := false, Force := false,
    Timeout := defaultTimeout30m }

/-- The C1 scenario run. -/
def c1run : (RollbackResult × Option String) × World := rollbackContainer 3 w0 "web" c1opts

/-- Fixture: environment where the current image resolves to curImg, the
pulled update source resolves to latImg (different digest), and the first
readiness wait fails while later ones succeed. -/
def envUpd : Env :=
  { envAllOk with
      imageInfo := fun ref => if ref == "sha256:aaaaaaaaaaaaaaaa" then .ok curImg else .ok latImg,
      waitQ := [false] }

/-- Fixture: starting world for the C7 scenario. -/
def wUpd : World :=
  { cfg := cfg0, env := envUpd, db := [], nextId := 1, clock := 10,
    lockDepth := 0, panicked := false, deadlocked := false, events := [] }

/-- Fixture: plain update options. -/
def updOpts : UpdateOptions :=
  { Force := false, DryRun := false, Timeout := defaultTimeout30m,
    ContainerReadyTimeout := defaultTimeout30m, Notify := false }

/-- The C7 scenario run: recreate succeeds, the readiness wait times out,
the compensating rollback succeeds. -/
def c7run : (UpdateResult × Option String) × World := updateContainer 3 wUpd "web" updOpts

/-- Fixture: environment where current and pulled image are identical, so no
update is needed. -/
def envSame : Env := { envAllOk with imageInfo := fun _ => .ok curImg }

/-- Fixture: starting world for the C3 scenario. -/
def wSame : World :=
  { cfg := cfg0, env := envSame, db := [], nextId := 1, clock := 10,
    lockDepth := 0, panicked := false, deadlocked := false, events := [] }

/-- The C3 scenario run: check reports no update and force is unset. -/
def c3run : (UpdateResult × Option String) × World := updateContainer 3 wSame "web" updOpts

/-- Fixture: environment where saving a snapshot record to the store fails
and the container carries a dataset label. -/
def envSaveFail : Env := { envAllOk with inspectD := .found ctnZfs, dbSaveD := false }

/-- Fixture: starting world for the C8 witness scenario. -/
def wSaveFail : World :=
  { cfg := cfg0, env := envSaveFail, db := [], nextId := 1, clock := 10,
    lockDepth := 0, panicked := false, deadlocked := false, events := [] }

/-- The C8 witness run: dataset snapshot created, then the store save fails. -/
def c8run : Except String (Option ContainerSnapshot) × World :=
  createSnapshot wSaveFail "web"
    {Message := "m", DryRun := false, Force := false, NoCleanup := true}

/-- Fixture rows for the cleanup and remove scenarios: five snapshots of web
with distinct ids and timestamps (two carrying dataset snapshots) and one
snapshot of another container. -/
def mkRow (id : Int) (name : String) (zfs : String) (t : Nat) : ContainerSnapshot :=
  { ID := id, ContainerName := name,
    ImageRef := curImg,
    Config := .ok { Image := "nginx:latest", Labels := [] },
    HostConfig := .ok "hc", NetworkConfig := .ok "nc",
    ZFSSnapshot := zfs, Status := "snapshot", Message := "m" ++ toString id, CreatedAt := t }

/-- Fixture table: web rows at seconds 1..5 (ids 1..5), db row of another
container at second 6 (id 6). -/
def rows5 : List ContainerSnapshot :=
  [ mkRow 1 "web" "tank/data@snapshot_1" 1,
    mkRow 2 "web" "" 2,
    mkRow 3 "web" "tank/data@snapshot_3" 3,
    mkRow 4 "web" "" 4,
    mkRow 5 "web" "" 5,
    mkRow 6 "other" "tank/other@snapshot_6" 6 ]

/-- Fixture: remove options selecting all rows plus ZFS destruction. -/
def removeAllZfs : RemoveOptions :=
  { Force := false, WithContainer := false, OlderThan := 0, Before := 0,
    All := true, DryRun := false, Zfs := true }

/-- The result record produced on the no-update path of UpdateContainer
(update.go lines 60-67): Success is never assigned there and keeps its zero
value false. -/
def skipResult (name : String) (cr : CheckResult) : UpdateResult :=
  { ContainerName := name, Success := false, NeedsUpdate := cr.NeedsUpdate,
    RollbackNeeded := false, SnapshotID := 0, OldImage := cr.CurrentImage,
    NewImage := cr.UpdateImage, Error := none }

/-- Container-recreate events, for stating whether any mutation happened. -/
def isRecreated : Event → Bool
  | .recreated _ _ _ => true
  | _ => false

/-- Dataset-rollback events. -/
def isZfsRolledBack : Event → Bool
  | .zfsRolledBack _ => true
  | _ => false

/-- The CannotGuaranteeVersion error text (part_004 lines 277-278). -/
def cgvMsg : String :=
  "cannot guarantee exact image version for rollback (use --force to override)"

deriving instance DecidableEq for Except

/-!  Theorems.  One theorem per claim (plus its counterexample, witness and
shared helper lemmas), in claim order C10, C4, C6, C7, C1, C3, C2, C8, C9, C5.
-/

/-- C10: ImageReference.String is partial: every branch evaluates ID[:12], so
the method panics (result none) exactly when the ID field has fewer than 12
characters — for example an empty ID with a non-empty tag — and is safe
exactly under the precondition len(ID) ≥ 12. -/
theorem c10_image_string_partial (ir : ImageReference) :
    ((ImageReference.string ir).isNone ↔ ir.ID.length < 12) ∧
    ((ImageReference.string ir).isSome ↔ 12 ≤ ir.ID.length) := by
  unfold ImageReference.string goSlice12
  constructor <;> (split_ifs <;> simp_all)

/-- C4 counterexample: a zockimate.timeout label of 29s is honored by
GetTimeout (the claim says it is ignored): the effective timeout is 29s,
not the 30-minute default. -/
theorem c4_timeout_29s_honored_counterexample :
    getTimeout [("zockimate.timeout", "29s")] defaultTimeout30m = 29000000000 ∧
    getTimeout [("zockimate.timeout", "29s")] defaultTimeout30m ≠ defaultTimeout30m := by
  decide

/-- C4 amended: GetTimeout honors the zockimate.timeout label iff it parses
to a duration in (0 s, 24 h] — there is no 30-second lower bound — so label
values 29s, 30s, 24h, 24h+1s and an unparseable string are respectively
honored, honored, honored, ignored, ignored. -/
theorem c4_timeout_label_window :
    getTimeout [("zockimate.timeout", "29s")] defaultTimeout30m = 29000000000 ∧
    getTimeout [("zockimate.timeout", "30s")] defaultTimeout30m = 30000000000 ∧
    getTimeout [("zockimate.timeout", "24h")] defaultTimeout30m = hours24 ∧
    getTimeout [("zockimate.timeout", "24h1s")] defaultTimeout30m = defaultTimeout30m ∧
    getTimeout [("zockimate.timeout", "not-a-duration")] defaultTimeout30m = defaultTimeout30m := by
  decide

/-- C6: with opts.zfs set, RemoveEntries composes its gather query as
"SELECT zfs_snapshot FROM container_snapshots WHERE " + query where query is
the complete DELETE statement, producing a statement whose WHERE clause
starts with the DELETE keyword; preparing it fails — for EVERY combination
of the all / before / older_than filters — so every zfs-flagged call
returns an error having deleted nothing and destroyed nothing.  Without
opts.zfs the same deletion succeeds and reports the affected rows. -/
theorem c6_remove_zfs_gather_malformed (zfsOk : String → Bool)
    (db : List ContainerSnapshot) (name : String) (opts : RemoveOptions)
    (now : Nat) (hz : opts.Zfs = true) :
    removeQuery removeAllZfs = "DELETE FROM container_snapshots WHERE container_name = ?" ∧
    "SELECT zfs_snapshot FROM container_snapshots WHERE " ++ removeQuery removeAllZfs =
      "SELECT zfs_snapshot FROM container_snapshots WHERE DELETE FROM container_snapshots WHERE container_name = ?" ∧
    sqlWhereClauseMalformed
      ("SELECT zfs_snapshot FROM container_snapshots WHERE " ++ removeQuery opts) = true ∧
    removeEntries zfsOk db name opts now =
      (.error "failed to query ZFS snapshots", db, []) ∧
    removeEntries (fun _ => true) rows5 "web" {removeAllZfs with Zfs := false} 100 =
      (.ok 5, [mkRow 6 "other" "tank/other@snapshot_6" 6], []) := by
  have hm : sqlWhereClauseMalformed
      ("SELECT zfs_snapshot FROM container_snapshots WHERE " ++ removeQuery opts) = true := by
    by_cases hA : opts.All = true <;> by_cases hB : opts.Before = 0 <;>
      by_cases hO : 0 < opts.OlderThan <;>
        simp [removeQuery, removeConds, joinAnd, hA, hB, hO] <;> decide
  refine ⟨by decide, by decide, hm, ?_, by decide⟩
  unfold removeEntries
  simp [hz, hm]

/-- Witness for C6 at the concrete remove-all call on the five-row table:
the zfs-flagged call fails wholesale and the zfs-less variant deletes the
five web rows. -/
theorem c6_remove_zfs_gather_malformed_witness :
    removeEntries (fun _ => true) rows5 "web" removeAllZfs 100 =
      (.error "failed to query ZFS snapshots", rows5, []) ∧
    removeEntries (fun _ => true) rows5 "web" {removeAllZfs with Zfs := false} 100 =
      (.ok 5, [mkRow 6 "other" "tank/other@snapshot_6" 6], []) := by
  have h := c6_remove_zfs_gather_malformed (fun _ => true) rows5 "web" removeAllZfs 100
    (by decide)
  exact ⟨h.2.2.2.1, h.2.2.2.2⟩

/-- C7: in the update compensation path (recreate succeeds, the readiness
wait fails, the nested compensating rollback succeeds) the lock is released
before the nested rollback and re-acquired inside it, but the lock
discipline is NOT balanced: after the compensating rollback returns, the
deferred Unlock from update.go line 84 runs on the lock that the explicit
Unlock at line 138 already released — in Go, sync.RWMutex.Unlock of an
unlocked lock panics.  The nested rollback can succeed (and so reach that
final Unlock) because the container carries a zockimate.timeout label: the
compensating call passes Timeout 0 (the Go zero value of the unset field),
so its readiness wait is bounded by GetTimeout(labels, 0) — 5 minutes here,
but born-expired whenever no such label is set.  The full event trace of
the scenario and the panicked flag witness the double release. -/
theorem c7_update_compensation_double_unlock :
    c7run.2.events =
      [ Event.lockAcquired,                               -- CheckContainer
        Event.pulled "nginx:latest",
        Event.lockReleased,
        Event.lockAcquired,                               -- CreateSnapshot (pre-update)
        Event.snapshotSaved 1 "Pre-update snapshot",
        Event.lockReleased,
        Event.lockAcquired,                               -- update mutation window
        Event.recreated "web" "nginx:latest"
          [("zockimate.enable", "true"), ("zockimate.timeout", "5m")],
        Event.waited "web" 300000000000 false,            -- readiness timeout (5m label)
        Event.lockReleased,                               -- explicit Unlock, update.go line 138
        Event.lockAcquired,                               -- nested rollback: safety snapshot
        Event.snapshotSaved 2 "Auto-save before rollback to snapshot 1",
        Event.lockReleased,
        Event.lockAcquired,                               -- nested rollback mutation window
        Event.pulled "nginx@sha256:abc",
        Event.recreated "web" "nginx@sha256:abc"
          [("zockimate.enable", "true"), ("zockimate.timeout", "5m"),
           ("zockimate.snapshot_id", "1"), ("zockimate.original_image", "nginx:latest")],
        Event.waited "web" 300000000000 true,             -- bound from the 5m label, not Timeout 0
        Event.lockReleased,                               -- nested rollback deferred Unlock
        Event.unlockOfUnlocked ] ∧                        -- deferred Unlock, update.go line 84
    c7run.2.panicked = true ∧
    c7run.2.deadlocked = false ∧
    c7run.2.lockDepth = 0 ∧
    c7run.1.1.Error =
      some "update failed (rolled back to previous version: 1): container not ready" := by
  decide

/-- C1 counterexample: rollback of snapshot 7 (empty repo_digest and
local_id) with the image aspect and no force does fail with
CannotGuaranteeVersion, but — contrary to the claim — a safety snapshot IS
created before the exact-version check, and the failure then triggers the
compensating rollback, which recreates the container (a mutation).  The
container's zockimate.timeout label (5m) bounds the compensation's
readiness wait, so the compensation completes and the call returns. -/
theorem c1_nonexact_rollback_counterexample :
    c1run.1.2 = some cgvMsg ∧
    c1run.1.1.Error = some cgvMsg ∧
    (c1run.2.db.map (fun r => r.Message)).contains "Auto-save before rollback to snapshot 7" = true ∧
    c1run.1.1.SafetySnapshot = 8 ∧
    c1run.2.events.any isRecreated = true := by
  decide

/-- Lookup over an append skips a prefix without the key. -/
theorem lookup_append_of_none {α β : Type} [BEq α] (l1 l2 : List (α × β)) (k : α)
    (h : l1.lookup k = none) : (l1 ++ l2).lookup k = l2.lookup k := by
  induction l1 with
  | nil => rfl
  | cons p l ih =>
    simp only [List.lookup, List.cons_append] at *
    cases hk : (k == p.1) with
    | true => simp [hk] at h
    | false =>
      simp only [hk] at h ⊢
      exact ih h

/-- Lookup over an append finds a binding of the prefix. -/
theorem lookup_append_of_some {α β : Type} [BEq α] (l1 l2 : List (α × β)) (k : α) (v : β)
    (h : l1.lookup k = some v) : (l1 ++ l2).lookup k = some v := by
  induction l1 with
  | nil => simp [List.lookup] at h
  | cons p l ih =>
    simp only [List.cons_append, List.lookup] at *
    cases hk : (k == p.1) with
    | true =>
      simp only [hk] at h ⊢
      exact h
    | false =>
      simp only [hk] at h ⊢
      exact ih h

/-- The key-replacing map of a Go map assignment leaves lookups of any other
key unchanged. -/
theorem lookup_map_replace_ne {β : Type} (ls : List (String × β)) (k k' : String) (v : β)
    (h : (k' == k) = false) :
    List.lookup k' (ls.map (fun p => if p.1 = k then (k, v) else p)) = List.lookup k' ls := by
  induction ls with
  | nil => rfl
  | cons p l ih =>
    obtain ⟨a, b⟩ := p
    simp only [List.map_cons]
    dsimp only
    by_cases hp : a = k
    · subst hp
      rw [if_pos rfl]
      simp only [List.lookup, h]
      exact ih
    · rw [if_neg hp]
      simp only [List.lookup]
      cases hk : (k' == a) with
      | true => rfl
      | false => exact ih

/-- GetSnapshot finds a freshly appended row by its id when no earlier row
carries that id. -/
theorem dbGetSnapshot_append_fresh (db : List ContainerSnapshot) (name : String)
    (id : Int) (row : ContainerSnapshot)
    (hid : 0 < id) (hrow : row.ID = id) (hname : row.ContainerName = name)
    (hfresh : ∀ r ∈ db, r.ID ≠ id) :
    dbGetSnapshot (db ++ [row]) name id = .ok row := by
  unfold dbGetSnapshot
  rw [if_pos hid]
  have h1 : db.filter (fun r => r.ContainerName == name && r.ID == id) = [] := by
    rw [List.filter_eq_nil_iff]
    intro r hr
    simp [hfresh r hr]
  rw [List.filter_append, h1]
  simp [hname, hrow]

set_option maxHeartbeats 2000000 in
/-- C1 amended: for every rollback that selects the image aspect, without
force, on a stored snapshot whose ImageReference has empty repo_digest and
empty local_id, against a managed running container in a well-behaved
environment: the call does fail with CannotGuaranteeVersion — but a safety
snapshot IS created first (its fresh id is recorded in the result's
SafetySnapshot field and its save is in the trace), and the failure then
triggers the compensating rollback to that safety snapshot, which recreates
the container: a mutation occurs.  The container's config carries a
zockimate.timeout label (here 5m): the compensating call passes Timeout 0
(the Go zero value of its unset field), so the label is what gives its
readiness wait a positive bound and lets the compensation complete — absent
such a label that wait is born expired, the compensation fails and its own
compensator re-enters RollbackContainer with Timeout 0 again, unboundedly,
so the call never returns at all (still creating the safety snapshot and
mutating at every level). -/
theorem c1_nonexact_rollback_amended (fuel : Nat) (w : World) (name : String)
    (opts : RollbackOptions) (ctn : ContainerInfo) (snap : ContainerSnapshot)
    (cur : ImageReference) (cfgS : ContainerConfig) (hostS netS : String)
    (hname : cleanContainerName name = name)
    (himg : opts.Image = true)
    (hforce : opts.Force = false)
    (hinq : w.env.inspectQ = [])
    (hind : w.env.inspectD = .found ctn)
    (henabled : isContainerEnabled ctn.Config.Labels = true)
    (hrunning : ctn.Running = true)
    (hsnap : dbGetSnapshot w.db name opts.SnapshotID = .ok snap)
    (hrd : snap.ImageRef.RepoDigest = "")
    (hid0 : snap.ImageRef.ID = "")
    (himgi : w.env.imageInfo ctn.Image = .ok cur)
    (horig : labelGet ctn.Config.Labels "zockimate.original_image" = none)
    (hsnaplbl : labelGet ctn.Config.Labels "zockimate.snapshot_id" = none)
    (hds : getZFSDataset ctn.Config.Labels = "")
    (hgetq : w.env.getConfigsQ = []) (hgetd : w.env.getConfigsD = true)
    (hsaveq : w.env.dbSaveQ = []) (hsaved : w.env.dbSaveD = true)
    (hnid : 0 < w.nextId)
    (hfresh : ∀ r ∈ w.db, r.ID ≠ w.nextId)
    (hlock : w.lockDepth = 0)
    (hcfgS : snap.Config = .ok cfgS)
    (hhostS : snap.HostConfig = .ok hostS)
    (hnetS : snap.NetworkConfig = .ok netS)
    (hpull : ∀ ref, w.env.pull ref = true)
    (hrecq : w.env.recreateQ = []) (hrecd : w.env.recreateD = true)
    (hwaitq : w.env.waitQ = []) (hwaitd : w.env.waitD = true)
    (hnotif : w.cfg.hasNotify = false)
    (hctnimg : (ctn.Config.Image != "") = true)
    (htmo : labelGet ctn.Config.Labels "zockimate.timeout" = some "5m") :
    (rollbackContainer (fuel + 2) w name opts).1.2 = some cgvMsg ∧
    (rollbackContainer (fuel + 2) w name opts).1.1.Error = some cgvMsg ∧
    (rollbackContainer (fuel + 2) w name opts).1.1.SafetySnapshot = w.nextId ∧
    Event.snapshotSaved w.nextId
        ("Auto-save before rollback to snapshot " ++ toString snap.ID)
      ∈ (rollbackContainer (fuel + 2) w name opts).2.events ∧
    (rollbackContainer (fuel + 2) w name opts).2.events.any isRecreated = true := by
  have horig2 : List.lookup "zockimate.original_image" ctn.Config.Labels = none := horig
  have hsnl2 : List.lookup "zockimate.snapshot_id" ctn.Config.Labels = none := hsnaplbl
  have hds2 : (List.lookup "zockimate.zfs_dataset" ctn.Config.Labels).getD "" = "" := hds
  have htmo2 : List.lookup "zockimate.timeout" ctn.Config.Labels = some "5m" := htmo
  have hparse : parseGoDuration "5m" = some 300000000000 := by decide
  have hdb2 :
      dbGetSnapshot
          (w.db ++
            [{ ID := w.nextId, ContainerName := name,
               ImageRef := { ID := cur.ID, RepoDigest := cur.RepoDigest, Tag := cur.Tag,
                             Original := ctn.Config.Image, Platform := cur.Platform },
               Config := Enc.ok ctn.Config, HostConfig := Enc.ok ctn.HostRaw,
               NetworkConfig := Enc.ok ctn.NetRaw, ZFSSnapshot := "", Status := "snapshot",
               Message := "Auto-save before rollback to snapshot " ++ toString snap.ID,
               CreatedAt := w.clock + 1 }])
          name w.nextId =
        Except.ok
          { ID := w.nextId, ContainerName := name,
            ImageRef := { ID := cur.ID, RepoDigest := cur.RepoDigest, Tag := cur.Tag,
                          Original := ctn.Config.Image, Platform := cur.Platform },
            Config := Enc.ok ctn.Config, HostConfig := Enc.ok ctn.HostRaw,
            NetworkConfig := Enc.ok ctn.NetRaw, ZFSSnapshot := "", Status := "snapshot",
            Message := "Auto-save before rollback to snapshot " ++ toString snap.ID,
            CreatedAt := w.clock + 1 } :=
    dbGetSnapshot_append_fresh _ _ _ _ hnid rfl rfl hfresh
  simp [rollbackContainer, rollbackBodyK, rollbackImage1K, rollbackStage2K,
    rollbackStage3K, rollbackFailK, rollbackOk, rollbackResult0,
    createSnapshot, createSnapshotRest, checkFinish,
    wLock, wUnlock, wEvent, wInspect, wPull, wRecreate, wWait, wPopGetConfigs,
    wPopZfsCreate, wDbSave, wZfsDestroy,
    ImageReference.IsExactReference, ImageReference.BestReference,
    isRecreated, errStr, getZFSDataset, labelGetD, labelSet, labelGet,
    hname, hinq, hind, henabled, hrunning, hsnap, hrd, hid0, himgi, horig,
    hsnaplbl, hgetq, hgetd, hsaveq, hsaved, hlock, hcfgS, hhostS, hnetS,
    hpull, hrecq, hrecd, hwaitq, hwaitd, hnotif, hctnimg, himg, hforce,
    lookup_append_of_none, lookup_append_of_some, lookup_map_replace_ne,
    getTimeout, hours24, htmo2, hparse,
    hnid, horig2, hsnl2, hds2, hdb2, cgvMsg]

/-- Witness for the amended C1 theorem at the concrete C1 scenario: snapshot
7 on file, container web managed and running, every collaborator succeeding. -/
theorem c1_nonexact_rollback_amended_witness :
    (rollbackContainer 3 w0 "web" c1opts).1.2 = some cgvMsg ∧
    (rollbackContainer 3 w0 "web" c1opts).1.1.SafetySnapshot = w0.nextId ∧
    (rollbackContainer 3 w0 "web" c1opts).2.events.any isRecreated = true := by
  have h := c1_nonexact_rollback_amended 1 w0 "web" c1opts ctnWeb snap7 curImg
    { Image := "nginx:1.24", Labels := [("zockimate.enable", "true")] } "hc" "nc"
    rfl rfl rfl rfl rfl rfl rfl (by decide) rfl rfl rfl rfl rfl rfl rfl rfl rfl rfl
    (by decide) (by decide) rfl rfl rfl rfl (fun _ => rfl) rfl rfl rfl rfl rfl rfl rfl
  exact ⟨h.1, h.2.2.1, h.2.2.2.2⟩

/-- C3 counterexample: when the check step reports needs_update = false and
force is unset, UpdateContainer returns a result whose Success field is
FALSE (the claim says true) — the field is simply never assigned on that
path — with NeedsUpdate false and a nil error, and without creating a
pre-update snapshot or recreating the container. -/
theorem c3_skip_success_false_counterexample :
    c3run.1.1.Success = false ∧
    c3run.1.1.NeedsUpdate = false ∧
    c3run.1.1.Error = none ∧
    c3run.1.2 = none ∧
    c3run.2.db = [] ∧
    c3run.2.events = [Event.lockAcquired, Event.pulled "nginx:latest", Event.lockReleased] := by
  decide

/-- C3 amended: whenever the check step reports needs_update = false and
opts.force is unset, UpdateContainer returns exactly the result of the
no-update path — Success FALSE (the field is never assigned there), Error
nil, NeedsUpdate false, the images copied from the check — and the world is
exactly the post-check world: no pre-update snapshot is created and no
recreate is issued. -/
theorem c3_no_update_skip (fuel : Nat) (w : World) (name : String)
    (opts : UpdateOptions) (cr : CheckResult) (ctn : ContainerInfo)
    (hname : cleanContainerName name = name)
    (hdry : opts.DryRun = false)
    (hforce : opts.Force = false)
    (hinq : w.env.inspectQ = [])
    (hind : w.env.inspectD = .found ctn)
    (henabled : isContainerEnabled ctn.Config.Labels = true)
    (hrunning : ctn.Running = true)
    (hchk : (checkContainer w name checkOptsForUpdate).1 = (cr, none))
    (hnu : cr.NeedsUpdate = false) :
    updateContainer fuel w name opts =
      ((skipResult name cr, none), (checkContainer w name checkOptsForUpdate).2) := by
  have hfull : checkContainer w name checkOptsForUpdate =
      ((cr, none), (checkContainer w name checkOptsForUpdate).2) := by
    rw [← hchk]
  unfold updateContainer
  rw [hname, hdry]
  simp only [Bool.false_eq_true, if_false]
  unfold wInspect
  rw [hinq, hind]
  simp only [henabled, hrunning, Bool.not_true, Bool.and_false, Bool.false_eq_true, if_false]
  rw [hfull]
  simp only [hnu, hforce, Bool.not_false, Bool.and_self, if_true, skipResult]

/-- C3 witness: the amended theorem applied at a concrete no-update run. -/
theorem c3_no_update_skip_witness :
    updateContainer 3 wSame "web" updOpts =
      ((skipResult "web"
          {NeedsUpdate := false, CurrentImage := some curImg, UpdateImage := some curImg}, none),
       (checkContainer wSame "web" checkOptsForUpdate).2) :=
  c3_no_update_skip 3 wSame "web" updOpts
    {NeedsUpdate := false, CurrentImage := some curImg, UpdateImage := some curImg} ctnWeb
    (by decide) (by decide) (by decide) (by decide) (by decide) (by decide) (by decide)
    (by decide) (by decide)

/-- C2: whenever CheckContainer returns successfully and both the current
image and the freshly pulled update-source image carry non-empty repo
digests, the returned needs_update equals the digest inequality; in
particular equal digests give needs_update = false. -/
theorem c2_check_digest_comparison (w : World) (name : String) (opts : CheckOptions)
    (r : CheckResult) (w2 : World) (cur lat : ImageReference)
    (h : checkContainer w name opts = ((r, none), w2))
    (hcur : r.CurrentImage = some cur) (hlat : r.UpdateImage = some lat)
    (hdc : cur.RepoDigest ≠ "") (hdl : lat.RepoDigest ≠ "") :
    r.NeedsUpdate = (cur.RepoDigest != lat.RepoDigest) := by
  unfold checkContainer at h
  dsimp only at h
  rcases hI : wInspect (wLock w) with ⟨res, w1⟩
  rw [hI] at h
  cases res with
  | notFound =>
    exfalso
    simp only [Prod.mk.injEq] at h
    exact Option.noConfusion h.1.2
  | engineErr =>
    exfalso
    simp only [Prod.mk.injEq] at h
    exact Option.noConfusion h.1.2
  | found ctn =>
    dsimp only at h
    by_cases hg1 : (!w1.cfg.NoFilter && !isContainerEnabled ctn.Config.Labels) = true
    · rw [if_pos hg1] at h
      exfalso
      simp only [Prod.mk.injEq] at h
      exact Option.noConfusion h.1.2
    · rw [if_neg hg1] at h
      by_cases hg2 : (!w1.cfg.All && !ctn.Running) = true
      · rw [if_pos hg2] at h
        exfalso
        simp only [Prod.mk.injEq] at h
        exact Option.noConfusion h.1.2
      · rw [if_neg hg2] at h
        rcases hII : w1.env.imageInfo ctn.Image with e | currentImage <;> rw [hII] at h
        · exfalso
          simp only [Prod.mk.injEq] at h
          exact Option.noConfusion h.1.2
        · dsimp only at h
          by_cases hp : (!(wPull w1
              (if (labelGetD ctn.Config.Labels "zockimate.original_image" == "") = true
               then ctn.Config.Image
               else labelGetD ctn.Config.Labels "zockimate.original_image")).1) = true
          · rw [if_pos hp] at h
            exfalso
            simp only [Prod.mk.injEq] at h
            exact Option.noConfusion h.1.2
          · rw [if_neg hp] at h
            rcases hIII : (wPull w1
                (if (labelGetD ctn.Config.Labels "zockimate.original_image" == "") = true
                 then ctn.Config.Image
                 else labelGetD ctn.Config.Labels "zockimate.original_image")).2.env.imageInfo
                (if (labelGetD ctn.Config.Labels "zockimate.original_image" == "") = true
                 then ctn.Config.Image
                 else labelGetD ctn.Config.Labels "zockimate.original_image")
              with e | latestImage <;> rw [hIII] at h
            · exfalso
              simp only [Prod.mk.injEq] at h
              exact Option.noConfusion h.1.2
            · dsimp only at h
              by_cases hplat : (currentImage.Platform != latestImage.Platform) = true
              · rw [if_pos hplat] at h
                exfalso
                simp only [Prod.mk.injEq] at h
                exact Option.noConfusion h.1.2
              · rw [if_neg hplat] at h
                by_cases hex : (currentImage.IsExactReference && latestImage.IsExactReference) = true
                · rw [if_pos hex] at h
                  rw [if_neg hplat] at h
                  unfold checkFinish at h
                  dsimp only at h
                  by_cases hdig : (currentImage.RepoDigest != "" && latestImage.RepoDigest != "") = true
                  · rw [if_pos hdig] at h
                    repeat' (split at h)
                    all_goals simp only [Prod.mk.injEq] at h
                    all_goals obtain ⟨⟨hr, -⟩, -⟩ := h
                    all_goals subst hr
                    all_goals dsimp only at hcur hlat
                    all_goals injection hcur with hcur2
                    all_goals injection hlat with hlat2
                    all_goals subst hcur2
                    all_goals subst hlat2
                    all_goals rfl
                  · rw [if_neg hdig] at h
                    exfalso
                    repeat' (split at h)
                    all_goals simp only [Prod.mk.injEq] at h
                    all_goals obtain ⟨⟨hr, -⟩, -⟩ := h
                    all_goals subst hr
                    all_goals dsimp only at hcur hlat
                    all_goals injection hcur with hcur2
                    all_goals injection hlat with hlat2
                    all_goals subst hcur2
                    all_goals subst hlat2
                    all_goals simp only [Bool.and_eq_true, bne_iff_ne, ne_eq] at hdig
                    all_goals exact hdig ⟨fun hc => hdc hc, fun hc => hdl hc⟩
                · rw [if_neg hex] at h
                  exfalso
                  unfold checkFinish at h
                  dsimp only at h
                  repeat' (split at h)
                  all_goals simp only [Prod.mk.injEq] at h
                  all_goals obtain ⟨⟨hr, -⟩, -⟩ := h
                  all_goals subst hr
                  all_goals dsimp only at hcur hlat
                  all_goals injection hcur with hcur2
                  all_goals injection hlat with hlat2
                  all_goals subst hcur2
                  all_goals subst hlat2
                  all_goals simp only [Bool.and_eq_true, ImageReference.IsExactReference,
                    Bool.or_eq_true, bne_iff_ne, ne_eq] at hex
                  all_goals exact hex ⟨Or.inl hdc, Or.inl hdl⟩

/-- C2 witness: the theorem applied at a concrete run in which both images
resolve to the same digest-carrying reference, needs_update = false. -/
theorem c2_check_digest_comparison_witness :
    (checkContainer wSame "web" checkOptsForUpdate).1.1.NeedsUpdate
      = (curImg.RepoDigest != curImg.RepoDigest) := by
  have h1 : (checkContainer wSame "web" checkOptsForUpdate).1 =
      ({NeedsUpdate := false, CurrentImage := some curImg, UpdateImage := some curImg}, none) := by
    decide
  have h2 : checkContainer wSame "web" checkOptsForUpdate =
      (({NeedsUpdate := false, CurrentImage := some curImg, UpdateImage := some curImg}, none),
       (checkContainer wSame "web" checkOptsForUpdate).2) := by
    rw [← h1]
  have h3 := c2_check_digest_comparison wSame "web" checkOptsForUpdate _ _ curImg curImg h2
    rfl rfl (by decide) (by decide)
  rw [h1]
  exact h3

theorem wLock_events (w : World) : (wLock w).events = w.events ++ [Event.lockAcquired] := by
  unfold wLock wEvent
  dsimp only
  split <;> rfl

theorem wUnlock_events (w : World) :
    (wUnlock w).events = w.events ++ [Event.lockReleased] ∨
    (wUnlock w).events = w.events ++ [Event.unlockOfUnlocked] := by
  unfold wUnlock wEvent
  dsimp only
  split
  · right; rfl
  · left; rfl

theorem wInspect_events (w : World) : (wInspect w).2.events = w.events := by
  unfold wInspect
  split <;> rfl

theorem wPopZfsCreate_events (w : World) : (wPopZfsCreate w).2.events = w.events := by
  unfold wPopZfsCreate
  split <;> rfl

theorem wPopGetConfigs_events (w : World) : (wPopGetConfigs w).2.events = w.events := by
  unfold wPopGetConfigs
  split <;> rfl

theorem wDbSave_error_events (u : World) (s : ContainerSnapshot) (e : String) (ws : World)
    (h : wDbSave u s = (.error e, ws)) : ws.events = u.events := by
  unfold wDbSave at h
  dsimp only at h
  split at h <;> split at h <;> simp only [Prod.mk.injEq] at h <;>
    first
      | exact Except.noConfusion h.1
      | rw [← h.2]

theorem noOrphanZfs_shift (pre suf : List Event) :
    noOrphanZfs pre (pre ++ suf) = noOrphanZfs [] suf := by
  unfold noOrphanZfs
  rw [List.drop_left]
  rfl

theorem handle_bne_empty (d c : String) : ((d ++ "@snapshot_" ++ c) != "") = true := by
  simp only [bne_iff_ne, ne_eq, String.ext_iff]
  show ¬(d.data ++ "@snapshot_".data ++ c.data = [])
  simp

/-- C8: whenever CreateSnapshot fails (after possibly creating a dataset
snapshot, e.g. when serializing configs or saving the record fails), every
dataset snapshot it created during the call also has a destroy issued for
the same handle before the error returns: a failed CreateSnapshot leaves no
orphan dataset snapshot. -/
theorem c8_create_snapshot_no_orphan (w : World) (name : String) (opts : SnapshotOptions)
    (msg : String)
    (h : (createSnapshot w name opts).1 = .error msg) :
    noOrphanZfs w.events (createSnapshot w name opts).2.events = true := by
  rcases hC : createSnapshot w name opts with ⟨res, w2⟩
  rw [hC] at h
  dsimp only at h
  subst h
  dsimp only
  unfold createSnapshot at hC
  dsimp only at hC
  set W1 : World :=
    { cfg := (wLock w).cfg, env := (wLock w).env, db := (wLock w).db, nextId := (wLock w).nextId,
      clock := (wLock w).clock + 1, lockDepth := (wLock w).lockDepth, panicked := (wLock w).panicked,
      deadlocked := (wLock w).deadlocked, events := (wLock w).events } with hW1
  have hW1ev : W1.events = w.events ++ [Event.lockAcquired] := wLock_events w
  by_cases hdry : opts.DryRun = true
  · rw [if_pos hdry] at hC
    simp only [Prod.mk.injEq] at hC
    exact absurd hC.1 (by simp)
  · rw [if_neg hdry] at hC
    rcases hI : wInspect W1 with ⟨ires, w1⟩
    rw [hI] at hC
    have hw1ev : w1.events = w.events ++ [Event.lockAcquired] := by
      have h2 : (wInspect W1).2 = w1 := by rw [hI]
      rw [← h2, wInspect_events, hW1ev]
    cases ires with
    | notFound =>
      dsimp only at hC
      simp only [Prod.mk.injEq] at hC
      obtain ⟨-, hw⟩ := hC
      subst hw
      rcases wUnlock_events w1 with he | he <;>
        (rw [he, hw1ev, List.append_assoc, noOrphanZfs_shift]; decide)
    | engineErr =>
      dsimp only at hC
      simp only [Prod.mk.injEq] at hC
      obtain ⟨-, hw⟩ := hC
      subst hw
      rcases wUnlock_events w1 with he | he <;>
        (rw [he, hw1ev, List.append_assoc, noOrphanZfs_shift]; decide)
    | found ctn =>
      dsimp only at hC
      by_cases hrun : (!opts.Force && !ctn.Running) = true
      · rw [if_pos hrun] at hC
        simp only [Prod.mk.injEq] at hC
        obtain ⟨-, hw⟩ := hC
        subst hw
        rcases wUnlock_events w1 with he | he <;>
          (rw [he, hw1ev, List.append_assoc, noOrphanZfs_shift]; decide)
      · rw [if_neg hrun] at hC
        rcases hIM : w1.env.imageInfo ctn.Image with e | imageRef0 <;> rw [hIM] at hC
        · dsimp only at hC
          simp only [Prod.mk.injEq] at hC
          obtain ⟨-, hw⟩ := hC
          subst hw
          rcases wUnlock_events w1 with he | he <;>
            (rw [he, hw1ev, List.append_assoc, noOrphanZfs_shift]; decide)
        · dsimp only at hC
          by_cases hds : (getZFSDataset ctn.Config.Labels != "") = true
          · rw [if_pos hds] at hC
            by_cases hzc : (!(wPopZfsCreate w1).1) = true
            · rw [if_pos hzc] at hC
              simp only [Prod.mk.injEq] at hC
              obtain ⟨-, hw⟩ := hC
              subst hw
              have hz : (wPopZfsCreate w1).2.events = w.events ++ [Event.lockAcquired] := by
                rw [wPopZfsCreate_events, hw1ev]
              rcases wUnlock_events (wPopZfsCreate w1).2 with he | he <;>
                (rw [he, hz, List.append_assoc, noOrphanZfs_shift]; decide)
            · rw [if_neg hzc] at hC
              unfold createSnapshotRest at hC
              dsimp only at hC
              set H : String :=
                getZFSDataset ctn.Config.Labels ++ "@snapshot_" ++ toString (wPopZfsCreate w1).2.clock with hH
              set X : World := wEvent (wPopZfsCreate w1).2 (Event.zfsCreated H) with hX
              have hXev : X.events = w.events ++ [Event.lockAcquired] ++ [Event.zfsCreated H] := by
                rw [hX]
                unfold wEvent
                rw [wPopZfsCreate_events, hw1ev]
              have hHne : (H != "") = true := by rw [hH]; exact handle_bne_empty _ _
              by_cases hok : (!(wPopGetConfigs X).1) = true
              · rw [if_pos hok, if_pos hHne] at hC
                simp only [Prod.mk.injEq] at hC
                obtain ⟨-, hw⟩ := hC
                subst hw
                have hzd : (wZfsDestroy (wPopGetConfigs X).2 H).events =
                    w.events ++ [Event.lockAcquired] ++ [Event.zfsCreated H] ++
                      [Event.zfsDestroyed H ((wPopGetConfigs X).2.env.zfsDestroy H)] := by
                  unfold wZfsDestroy wEvent
                  rw [wPopGetConfigs_events, hXev]
                rcases wUnlock_events (wZfsDestroy (wPopGetConfigs X).2 H) with he | he <;>
                  (rw [he, hzd]
                   simp only [List.append_assoc]
                   rw [noOrphanZfs_shift]
                   simp [noOrphanZfs])
              · rw [if_neg hok] at hC
                rcases hsv : wDbSave (wPopGetConfigs X).2
                    { ID := 0, ContainerName := cleanContainerName name,
                      ImageRef :=
                        (match labelGet ctn.Config.Labels "zockimate.original_image" with
                         | some v =>
                           { ID := imageRef0.ID, RepoDigest := imageRef0.RepoDigest, Tag := imageRef0.Tag,
                             Original := v, Platform := imageRef0.Platform }
                         | none =>
                           { ID := imageRef0.ID, RepoDigest := imageRef0.RepoDigest, Tag := imageRef0.Tag,
                             Original := ctn.Config.Image, Platform := imageRef0.Platform }),
                      Config := .ok ctn.Config, HostConfig := .ok ctn.HostRaw,
                      NetworkConfig := .ok ctn.NetRaw, ZFSSnapshot := H,
                      Status := "snapshot", Message := opts.Message,
                      CreatedAt := (wPopGetConfigs X).2.clock }
                  with ⟨sres, ws⟩
                rw [hsv] at hC
                cases sres with
                | ok id =>
                  dsimp only at hC
                  simp only [Prod.mk.injEq] at hC
                  exact absurd hC.1 (by simp)
                | error e =>
                  dsimp only at hC
                  rw [if_pos hHne] at hC
                  simp only [Prod.mk.injEq] at hC
                  obtain ⟨-, hw⟩ := hC
                  subst hw
                  have hwsev : ws.events = w.events ++ [Event.lockAcquired] ++ [Event.zfsCreated H] := by
                    rw [wDbSave_error_events _ _ _ _ hsv, wPopGetConfigs_events, hXev]
                  have hzd : (wZfsDestroy ws H).events =
                      w.events ++ [Event.lockAcquired] ++ [Event.zfsCreated H] ++
                        [Event.zfsDestroyed H (ws.env.zfsDestroy H)] := by
                    unfold wZfsDestroy wEvent
                    rw [hwsev]
                  rcases wUnlock_events (wZfsDestroy ws H) with he | he <;>
                    (rw [he, hzd]
                     simp only [List.append_assoc]
                     rw [noOrphanZfs_shift]
                     simp [noOrphanZfs])
          · rw [if_neg hds] at hC
            unfold createSnapshotRest at hC
            dsimp only at hC
            simp only [bne_self_eq_false, Bool.false_eq_true, if_false] at hC
            by_cases hok : (!(wPopGetConfigs w1).1) = true
            · rw [if_pos hok] at hC
              simp only [Prod.mk.injEq] at hC
              obtain ⟨-, hw⟩ := hC
              subst hw
              have hg : (wPopGetConfigs w1).2.events = w.events ++ [Event.lockAcquired] := by
                rw [wPopGetConfigs_events, hw1ev]
              rcases wUnlock_events (wPopGetConfigs w1).2 with he | he <;>
                (rw [he, hg, List.append_assoc, noOrphanZfs_shift]; decide)
            · rw [if_neg hok] at hC
              rcases hsv : wDbSave (wPopGetConfigs w1).2
                  { ID := 0, ContainerName := cleanContainerName name,
                    ImageRef :=
                      (match labelGet ctn.Config.Labels "zockimate.original_image" with
                       | some v =>
                         { ID := imageRef0.ID, RepoDigest := imageRef0.RepoDigest, Tag := imageRef0.Tag,
                           Original := v, Platform := imageRef0.Platform }
                       | none =>
                         { ID := imageRef0.ID, RepoDigest := imageRef0.RepoDigest, Tag := imageRef0.Tag,
                           Original := ctn.Config.Image, Platform := imageRef0.Platform }),
                    Config := .ok ctn.Config, HostConfig := .ok ctn.HostRaw,
                    NetworkConfig := .ok ctn.NetRaw, ZFSSnapshot := "",
                    Status := "snapshot", Message := opts.Message,
                    CreatedAt := (wPopGetConfigs w1).2.clock }
                with ⟨sres, ws⟩
              rw [hsv] at hC
              cases sres with
              | ok id =>
                dsimp only at hC
                simp only [Prod.mk.injEq] at hC
                exact absurd hC.1 (by simp)
              | error e =>
                dsimp only at hC
                simp only [Prod.mk.injEq] at hC
                obtain ⟨-, hw⟩ := hC
                subst hw
                have hwsev : ws.events = w.events ++ [Event.lockAcquired] := by
                  rw [wDbSave_error_events _ _ _ _ hsv, wPopGetConfigs_events, hw1ev]
                rcases wUnlock_events ws with he | he <;>
                  (rw [he, hwsev, List.append_assoc, noOrphanZfs_shift]; decide)

/-- C8 witness: the theorem applied at a concrete run where the container
has a dataset label, the ZFS snapshot is created, and the store save fails. -/
theorem c8_create_snapshot_no_orphan_witness :
    noOrphanZfs wSaveFail.events c8run.2.events = true :=
  c8_create_snapshot_no_orphan wSaveFail "web"
    {Message := "m", DryRun := false, Force := false, NoCleanup := true}
    "failed to save snapshot: store error" (by decide)

theorem rollbackFailK_cr
    (nested : World → String → RollbackOptions → (RollbackResult × Option String) × World)
    (w : World) (name : String) (safetyId : Int) (e : Option String)
    (cn : String) (suc : Bool) (sid : Int) (saf : Int) (ir dr : Bool) (err : Option String)
    (c c0 : Bool) :
    rollbackFailK nested w name safetyId ⟨cn, suc, sid, saf, ir, dr, c, err⟩ e =
      ((({(rollbackFailK nested w name safetyId ⟨cn, suc, sid, saf, ir, dr, c0, err⟩ e).1.1
            with ConfigRollback := c},
         (rollbackFailK nested w name safetyId ⟨cn, suc, sid, saf, ir, dr, c0, err⟩ e).1.2)),
       (rollbackFailK nested w name safetyId ⟨cn, suc, sid, saf, ir, dr, c0, err⟩ e).2) := by
  unfold rollbackFailK
  dsimp only
  split <;> rfl

theorem rollbackStage3K_cr
    (nested : World → String → RollbackOptions → (RollbackResult × Option String) × World)
    (w : World) (name : String) (safetyId : Int)
    (snap : ContainerSnapshot) (img : Bool) (tmo : Int)
    (config : ContainerConfig) (hostCfg netCfg : String)
    (cn : String) (suc : Bool) (sid : Int) (saf : Int) (ir dr : Bool) (err : Option String)
    (c c0 : Bool) :
    rollbackStage3K nested w name safetyId snap img tmo ⟨cn, suc, sid, saf, ir, dr, c, err⟩
        config hostCfg netCfg =
      ((({(rollbackStage3K nested w name safetyId snap img tmo
              ⟨cn, suc, sid, saf, ir, dr, c0, err⟩ config hostCfg netCfg).1.1
            with ConfigRollback := c},
         (rollbackStage3K nested w name safetyId snap img tmo
              ⟨cn, suc, sid, saf, ir, dr, c0, err⟩ config hostCfg netCfg).1.2)),
       (rollbackStage3K nested w name safetyId snap img tmo
            ⟨cn, suc, sid, saf, ir, dr, c0, err⟩ config hostCfg netCfg).2) := by
  unfold rollbackStage3K rollbackOk
  dsimp only
  repeat' split
  all_goals first
    | rfl
    | exact rollbackFailK_cr _ _ _ _ _ _ _ _ _ _ _ _ _ _

theorem rollbackStage2K_cr
    (nested : World → String → RollbackOptions → (RollbackResult × Option String) × World)
    (w : World) (name : String) (safetyId : Int)
    (snap : ContainerSnapshot) (img dat : Bool) (tmo : Int)
    (config : ContainerConfig) (hostCfg netCfg : String)
    (cn : String) (suc : Bool) (sid : Int) (saf : Int) (ir dr : Bool) (err : Option String)
    (c c0 : Bool) :
    rollbackStage2K nested w name safetyId snap img dat tmo ⟨cn, suc, sid, saf, ir, dr, c, err⟩
        config hostCfg netCfg =
      ((({(rollbackStage2K nested w name safetyId snap img dat tmo
              ⟨cn, suc, sid, saf, ir, dr, c0, err⟩ config hostCfg netCfg).1.1
            with ConfigRollback := c},
         (rollbackStage2K nested w name safetyId snap img dat tmo
              ⟨cn, suc, sid, saf, ir, dr, c0, err⟩ config hostCfg netCfg).1.2)),
       (rollbackStage2K nested w name safetyId snap img dat tmo
            ⟨cn, suc, sid, saf, ir, dr, c0, err⟩ config hostCfg netCfg).2) := by
  unfold rollbackStage2K
  dsimp only
  repeat' split
  all_goals first
    | exact rollbackStage3K_cr _ _ _ _ _ _ _ _ _ _ _ _ _ _ _ _ _ _ _
    | exact rollbackFailK_cr _ _ _ _ _ _ _ _ _ _ _ _ _ _

theorem rollbackImage1K_cr
    (nested : World → String → RollbackOptions → (RollbackResult × Option String) × World)
    (w : World) (name : String) (safetyId : Int)
    (snap : ContainerSnapshot) (img dat frc : Bool) (tmo : Int)
    (config : ContainerConfig) (hostCfg netCfg : String)
    (cn : String) (suc : Bool) (sid : Int) (saf : Int) (ir dr : Bool) (err : Option String)
    (c c0 : Bool) :
    rollbackImage1K nested w name safetyId snap img dat frc tmo ⟨cn, suc, sid, saf, ir, dr, c, err⟩
        config hostCfg netCfg =
      ((({(rollbackImage1K nested w name safetyId snap img dat frc tmo
              ⟨cn, suc, sid, saf, ir, dr, c0, err⟩ config hostCfg netCfg).1.1
            with ConfigRollback := c},
         (rollbackImage1K nested w name safetyId snap img dat frc tmo
              ⟨cn, suc, sid, saf, ir, dr, c0, err⟩ config hostCfg netCfg).1.2)),
       (rollbackImage1K nested w name safetyId snap img dat frc tmo
            ⟨cn, suc, sid, saf, ir, dr, c0, err⟩ config hostCfg netCfg).2) := by
  unfold rollbackImage1K
  dsimp only
  repeat' split
  all_goals first
    | exact rollbackStage2K_cr _ _ _ _ _ _ _ _ _ _ _ _ _ _ _ _ _ _ _ _
    | exact rollbackFailK_cr _ _ _ _ _ _ _ _ _ _ _ _ _ _

theorem rollbackBodyK_cr
    (nested : World → String → RollbackOptions → (RollbackResult × Option String) × World)
    (w : World) (name0 : String) (sid : Int) (img dat frc : Bool) (tmo : Int)
    (cn : String) (suc : Bool) (sid2 : Int) (saf : Int) (ir dr : Bool) (err : Option String)
    (c c0 : Bool) :
    rollbackBodyK nested w name0 sid img dat frc tmo ⟨cn, suc, sid2, saf, ir, dr, c, err⟩ =
      ((({(rollbackBodyK nested w name0 sid img dat frc tmo
              ⟨cn, suc, sid2, saf, ir, dr, c0, err⟩).1.1
            with ConfigRollback := c},
         (rollbackBodyK nested w name0 sid img dat frc tmo
              ⟨cn, suc, sid2, saf, ir, dr, c0, err⟩).1.2)),
       (rollbackBodyK nested w name0 sid img dat frc tmo
            ⟨cn, suc, sid2, saf, ir, dr, c0, err⟩).2) := by
  unfold rollbackBodyK
  dsimp only
  repeat' split
  all_goals first
    | rfl
    | exact rollbackImage1K_cr _ _ _ _ _ _ _ _ _ _ _ _ _ _ _ _ _ _ _ _ _
    | exact rollbackFailK_cr _ _ _ _ _ _ _ _ _ _ _ _ _ _

theorem rollbackContainer_cr (fuel : Nat) (w : World) (name : String)
    (opts : RollbackOptions) (c : Bool) :
    rollbackContainer fuel w name {opts with Config := c} =
      ((({(rollbackContainer fuel w name opts).1.1 with ConfigRollback := c},
         (rollbackContainer fuel w name opts).1.2)),
       (rollbackContainer fuel w name opts).2) := by
  cases fuel with
  | zero => rfl
  | succ f =>
    show rollbackBodyK _ w name opts.SnapshotID opts.Image opts.Data opts.Force opts.Timeout
        ⟨name, false, opts.SnapshotID, 0, opts.Image, opts.Data, c, none⟩ = _
    exact rollbackBodyK_cr _ _ _ _ _ _ _ _ _ _ _ _ _ _ _ _ opts.Config

/-- C9: RollbackContainer ignores the Config aspect flag: runs that differ
only in opts.Config produce the same world (identical effects: same pulls,
dataset rollbacks, recreates, waits, snapshots), the same returned Go error,
and results that differ only in the reported ConfigRollback field, which
merely echoes opts.Config. -/
theorem c9_rollback_ignores_config_flag (fuel : Nat) (w : World) (name : String)
    (opts : RollbackOptions) (b1 b2 : Bool) :
    (rollbackContainer fuel w name {opts with Config := b1}).2 =
      (rollbackContainer fuel w name {opts with Config := b2}).2 ∧
    (rollbackContainer fuel w name {opts with Config := b1}).1.2 =
      (rollbackContainer fuel w name {opts with Config := b2}).1.2 ∧
    (rollbackContainer fuel w name {opts with Config := b1}).1.1 =
      {(rollbackContainer fuel w name {opts with Config := b2}).1.1 with ConfigRollback := b1} ∧
    (rollbackContainer fuel w name opts).1.1.ConfigRollback = opts.Config := by
  have h1 := rollbackContainer_cr fuel w name opts b1
  have h2 := rollbackContainer_cr fuel w name opts b2
  refine ⟨?_, ?_, ?_, ?_⟩
  · rw [h1, h2]
  · rw [h1, h2]
  · rw [h1, h2]
  · have h3 := rollbackContainer_cr fuel w name opts opts.Config
    have h4 : ({opts with Config := opts.Config} : RollbackOptions) = opts := rfl
    rw [h4] at h3
    rw [h3]

/-- The row-deletion events a sweep emits are exactly one per victim, in
order, independent of the interleaved ZFS destroy events. -/
theorem filter_isRowDeleted_flatMap (f : String → Bool) (V : List ContainerSnapshot) :
    (V.flatMap (fun r =>
        (if r.ZFSSnapshot != "" then [Event.zfsDestroyed r.ZFSSnapshot (f r.ZFSSnapshot)] else [])
          ++ [Event.rowDeleted r.ID])).filter isRowDeleted
      = V.map (fun r => Event.rowDeleted r.ID) := by
  induction V with
  | nil => rfl
  | cons r V ih =>
    simp only [List.flatMap_cons, List.filter_append, ih, List.map_cons]
    split <;> simp [isRowDeleted]

/-- For a table with pairwise distinct ids, the SQL-style any-ID test used
by the sweep's DELETE agrees with plain membership in the victim list. -/
theorem cleanup_core_facts (db : List ContainerSnapshot) (name : String) (retain : Nat)
    (hnd : (db.map (fun r => r.ID)).Nodup) :
    ∀ r ∈ db,
      ((((sortByCreatedAtDesc (rowsFor db name)).drop retain).any (fun v => v.ID == r.ID)) = true ↔
        r ∈ (sortByCreatedAtDesc (rowsFor db name)).drop retain) := by
  intro r hr
  have permS := List.perm_insertionSort recentFirst (rowsFor db name)
  have injID := List.inj_on_of_nodup_map hnd
  constructor
  · intro hany
    obtain ⟨v, hv, hvid⟩ := List.any_eq_true.mp hany
    have hvdb : v ∈ db := by
      have hvS : v ∈ sortByCreatedAtDesc (rowsFor db name) :=
        (List.drop_subset retain _) hv
      have := permS.mem_iff.mp hvS
      exact List.mem_of_mem_filter this
    have : v = r := injID hvdb hr (by simpa using hvid)
    rw [← this]
    exact hv
  · intro hmem
    exact List.any_eq_true.mpr ⟨r, hmem, by simp⟩

/-- C5: for a table whose rows have distinct ids, cleanup(name, retain)
deletes exactly max(k - retain, 0) rows of that container (k = its row
count): the survivors of the container are exactly the retain most recent
by created_at (the model's sort is sorted most-recent-first and a
permutation of the container's rows), other containers are untouched, the
deletions and the row-deletion events do not depend on the ZFS destroy
outcomes (best-effort destroy), the row-deletion events target exactly the
rows past the retain-th most recent, and with exactly retain rows present
nothing is deleted. -/
theorem c5_cleanup_retention (f g : String → Bool) (db : List ContainerSnapshot)
    (name : String) (retain : Nat)
    (hnd : (db.map (fun r => r.ID)).Nodup) :
    (cleanupSnapshots f db name retain).1.length + ((rowsFor db name).length - retain) = db.length ∧
    (∀ r : ContainerSnapshot,
       r ∈ rowsFor (cleanupSnapshots f db name retain).1 name ↔
       r ∈ (sortByCreatedAtDesc (rowsFor db name)).take retain) ∧
    (∀ r ∈ db, r.ContainerName ≠ name → r ∈ (cleanupSnapshots f db name retain).1) ∧
    (cleanupSnapshots f db name retain).1 = (cleanupSnapshots g db name retain).1 ∧
    (cleanupSnapshots f db name retain).2.filter isRowDeleted =
      (cleanupSnapshots g db name retain).2.filter isRowDeleted ∧
    (cleanupSnapshots f db name retain).2.filter isRowDeleted =
      ((sortByCreatedAtDesc (rowsFor db name)).drop retain).map (fun r => Event.rowDeleted r.ID) ∧
    List.Sorted recentFirst (sortByCreatedAtDesc (rowsFor db name)) ∧
    List.Perm (sortByCreatedAtDesc (rowsFor db name)) (rowsFor db name) ∧
    ((rowsFor db name).length = retain → (cleanupSnapshots f db name retain).1 = db) := by
  have permS : List.Perm (sortByCreatedAtDesc (rowsFor db name)) (rowsFor db name) :=
    List.perm_insertionSort recentFirst (rowsFor db name)
  have core := cleanup_core_facts db name retain hnd
  have nodupDb : db.Nodup := List.Nodup.of_map _ hnd
  have nodupRows : (rowsFor db name).Nodup := List.Nodup.filter _ nodupDb
  have nodupS : (sortByCreatedAtDesc (rowsFor db name)).Nodup := permS.nodup_iff.mpr nodupRows
  set S := sortByCreatedAtDesc (rowsFor db name) with hS
  set V := S.drop retain with hV
  have hVsubS : ∀ v ∈ V, v ∈ S := fun v hv => (List.drop_subset retain S) hv
  have hVsubRows : ∀ v ∈ V, v ∈ rowsFor db name := fun v hv => permS.mem_iff.mp (hVsubS v hv)
  have hVsubDb : ∀ v ∈ V, v ∈ db := fun v hv => List.mem_of_mem_filter (hVsubRows v hv)
  have nodupV : V.Nodup := (List.drop_sublist retain S).nodup nodupS
  have hres : (cleanupSnapshots f db name retain).1 =
      db.filter (fun r => !(V.any (fun v => v.ID == r.ID))) := rfl
  have hresg : (cleanupSnapshots g db name retain).1 =
      db.filter (fun r => !(V.any (fun v => v.ID == r.ID))) := rfl
  -- membership in the surviving table
  have hmem_res : ∀ r : ContainerSnapshot,
      (r ∈ (cleanupSnapshots f db name retain).1 ↔ r ∈ db ∧ r ∉ V) := by
    intro r
    rw [hres, List.mem_filter]
    constructor
    · rintro ⟨hrdb, hp⟩
      refine ⟨hrdb, fun hrV => ?_⟩
      rw [Bool.not_eq_true', ← Bool.not_eq_true] at hp
      exact hp ((core r hrdb).mpr hrV)
    · rintro ⟨hrdb, hrV⟩
      refine ⟨hrdb, ?_⟩
      rw [Bool.not_eq_true']
      rw [← Bool.not_eq_true]
      intro hany
      exact hrV ((core r hrdb).mp hany)
  -- (e) events
  have hev : (cleanupSnapshots f db name retain).2.filter isRowDeleted =
      V.map (fun r => Event.rowDeleted r.ID) := filter_isRowDeleted_flatMap f V
  have hevg : (cleanupSnapshots g db name retain).2.filter isRowDeleted =
      V.map (fun r => Event.rowDeleted r.ID) := filter_isRowDeleted_flatMap g V
  -- (a) counting
  have hcount : (cleanupSnapshots f db name retain).1.length + ((rowsFor db name).length - retain) = db.length := by
    have hgone : List.Perm (db.filter (fun r => !(!(V.any (fun v => v.ID == r.ID))))) V := by
      apply (List.perm_ext_iff_of_nodup (List.Nodup.filter _ nodupDb) nodupV).mpr
      intro r
      rw [List.mem_filter]
      constructor
      · rintro ⟨hrdb, hp⟩
        simp only [Bool.not_not] at hp
        exact (core r hrdb).mp hp
      · intro hrV
        refine ⟨hVsubDb r hrV, ?_⟩
        simp only [Bool.not_not]
        exact (core r (hVsubDb r hrV)).mpr hrV
    have hlenV : V.length = (rowsFor db name).length - retain := by
      rw [hV, List.length_drop, permS.length_eq]
    have hsplit := db.length_eq_length_filter_add (fun r => !(V.any (fun v => v.ID == r.ID)))
    rw [hres, ← hlenV, ← hgone.length_eq]
    exact hsplit.symm
  refine ⟨hcount, ?_, ?_, ?_, by rw [hev, hevg], hev, List.sorted_insertionSort _ _, permS, ?_⟩
  -- (b) survivors of the container are the take
  · intro r
    rw [rowsFor, List.mem_filter, hmem_res]
    constructor
    · rintro ⟨⟨hrdb, hrV⟩, hname⟩
      have hrRows : r ∈ rowsFor db name := List.mem_filter.mpr ⟨hrdb, hname⟩
      have hrS : r ∈ S := permS.mem_iff.mpr hrRows
      rw [← List.take_append_drop retain S, List.mem_append] at hrS
      rcases hrS with h | h
      · exact h
      · exact absurd h hrV
    · intro htake
      have hrS : r ∈ S := (List.take_subset retain S) htake
      have hrRows : r ∈ rowsFor db name := permS.mem_iff.mp hrS
      have hname : (r.ContainerName == name) = true := by
        have := List.mem_filter.mp hrRows
        exact this.2
      refine ⟨⟨List.mem_of_mem_filter hrRows, ?_⟩, hname⟩
      intro hrV
      have hnodupTD : (S.take retain ++ S.drop retain).Nodup := by
        rw [List.take_append_drop]
        exact nodupS
      have hdisj := (List.nodup_append.mp hnodupTD).2.2
      exact hdisj htake hrV
  -- (c) other containers untouched
  · intro r hrdb hname
    rw [hmem_res]
    refine ⟨hrdb, fun hrV => ?_⟩
    have := List.mem_filter.mp (hVsubRows r hrV)
    exact hname (by simpa using this.2)
  -- (d) table independent of the zfs outcome
  · rw [hres, hresg]
  -- (f) exactly retain rows -> nothing deleted
  · intro hk
    have hVnil : V = [] := by
      rw [hV, List.drop_eq_nil_iff]
      rw [permS.length_eq, hk]
    rw [hres, hVnil]
    simp

/-- C5 witness: the theorem applied to a concrete table of five snapshots of
web (ids 1..5, seconds 1..5) and one snapshot of another container, with
retain = 3: two rows are deleted, the deletions do not depend on the ZFS
destroy outcome, and the row-deletion events target exactly the rows past
the third most recent. -/
theorem c5_cleanup_retention_witness :
    (cleanupSnapshots (fun _ => true) rows5 "web" 3).1.length +
      ((rowsFor rows5 "web").length - 3) = rows5.length ∧
    (cleanupSnapshots (fun _ => true) rows5 "web" 3).1 =
      (cleanupSnapshots (fun _ => false) rows5 "web" 3).1 ∧
    (cleanupSnapshots (fun _ => true) rows5 "web" 3).2.filter isRowDeleted =
      ((sortByCreatedAtDesc (rowsFor rows5 "web")).drop 3).map (fun r => Event.rowDeleted r.ID) := by
  have h := c5_cleanup_retention (fun _ => true) (fun _ => false) rows5 "web" 3 (by decide)
  exact ⟨h.1, h.2.2.2.1, h.2.2.2.2.2.1⟩
